import Mathlib

/-!
# Twin Cobra / Wardner: communication between the main CPU and the DSP

A shallow embedding of `src/mame/machine/twincobr.cpp`.  Every handler of the
driver is a function on an explicit machine state `twincobr_state`; read
handlers return the value read together with the state (they may log).

Conventions of the embedding:
* `uint16_t` / `uint32_t` quantities are naturals; 32-bit address arithmetic
  is reduced modulo `2 ^ 32` (`uint32`).
* `int` quantities (`m_intenable`, `m_dsp_on`, `m_dsp_BIO`, `m_dsp_execute`,
  `m_fsharkbt_8741` and the `state` argument of the line handlers) are
  integers; the one arithmetic operation on them (`+= 1`) wraps as a
  two's-complement 32-bit integer (`int32`).
* `LOG_DSP_CALLS` is `0`, so `LOG(...)` does nothing; `logerror` is kept and
  appends the offending address to `logerror_out`.
-/

/-- Modelled from the spec: the line state CLEARED of the host framework
(`emu.h` is not part of the sources). -/
abbrev CLEAR_LINE : Int := 0

/-- Modelled from the spec: the line state ASSERTED of the host framework. -/
abbrev ASSERT_LINE : Int := 1

/-- Modelled from the spec: the line state used by the periodic interrupt,
held until the processor acknowledges it. -/
abbrev HOLD_LINE : Int := 2

/-- Reduction of an unsigned 32-bit result. -/
def uint32 (x : Nat) : Nat := x % 4294967296

/-- Reduction of a signed 32-bit result (two's complement). -/
def int32 (x : Int) : Int := Int.bmod x 4294967296

/-- Modelled from the spec: the primary CPU's program address space, which the
sources only use through `read_word`, `write_word`, `read_byte` and
`write_byte`.  It maps an address to the unit stored there. -/
structure address_space where
  cell : Nat → Nat

namespace address_space

/-- Modelled from the spec: read one 16-bit unit at an address. -/
def read_word (m : address_space) (a : Nat) : Nat := m.cell a % 0x10000

/-- Modelled from the spec: store one 16-bit unit at an address; every other
address keeps its content. -/
def write_word (m : address_space) (a d : Nat) : address_space :=
  ⟨fun x => if x = a then d % 0x10000 else m.cell x⟩

/-- Modelled from the spec: read one byte at an address. -/
def read_byte (m : address_space) (a : Nat) : Nat := m.cell a % 0x100

/-- Modelled from the spec: store one byte at an address; every other address
keeps its content. -/
def write_byte (m : address_space) (a d : Nat) : address_space :=
  ⟨fun x => if x = a then d % 0x100 else m.cell x⟩

end address_space

/-- The members of `twincobr_state` used by `machine/twincobr.cpp`, followed by
the collaborators the handlers act on: the input lines of the two processors,
the main CPU's address space, the bookkeeping coin counters and the error
log. -/
structure twincobr_state where
  m_intenable : Int
  m_dsp_on : Int
  m_dsp_addr_w : Nat
  m_main_ram_seg : Nat
  m_dsp_BIO : Int
  m_dsp_execute : Int
  m_fsharkbt_8741 : Int
  m_sharedram : List Nat
  /-- State of `INPUT_LINE_HALT` of `m_maincpu`. -/
  maincpu_halt : Int
  /-- State of input line `0` of the interrupting device (Wardner). -/
  maincpu_irq0 : Int
  /-- State of `M68K_IRQ_4` of the interrupting device (Twin Cobra). -/
  maincpu_irq4 : Int
  /-- State of `INPUT_LINE_HALT` of `m_dsp`. -/
  dsp_halt : Int
  /-- State of input line `0` (TMS32010 INT) of `m_dsp`. -/
  dsp_int : Int
  /-- Program space of `m_maincpu`. -/
  mainspace : address_space
  /-- Last value forwarded to bookkeeping coin counter 0. -/
  coin_counter_0 : Int
  /-- Last value forwarded to bookkeeping coin counter 1. -/
  coin_counter_1 : Int
  /-- Addresses reported through `logerror`, oldest first. -/
  logerror_out : List Nat

namespace twincobr_state

/-- The call `logerror(...)` of the port-1 handlers: report the address
`m_main_ram_seg + m_dsp_addr_w`. -/
def logerror (s : twincobr_state) : twincobr_state :=
  { s with logerror_out := s.logerror_out ++ [uint32 (s.m_main_ram_seg + s.m_dsp_addr_w)] }

/-- `INTERRUPT_GEN_MEMBER(twincobr_state::twincobr_interrupt)`. -/
def twincobr_interrupt (s : twincobr_state) : twincobr_state :=
  if s.m_intenable ≠ 0 then
    { s with m_intenable := 0, maincpu_irq4 := HOLD_LINE }
  else s

/-- `INTERRUPT_GEN_MEMBER(twincobr_state::wardner_interrupt)`. -/
def wardner_interrupt (s : twincobr_state) : twincobr_state :=
  if s.m_intenable ≠ 0 then
    { s with m_intenable := 0, maincpu_irq0 := HOLD_LINE }
  else s

/-- `WRITE16_MEMBER(twincobr_state::twincobr_dsp_addrsel_w)`: DSP IO port 0. -/
def twincobr_dsp_addrsel_w (s : twincobr_state) (data : Nat) : twincobr_state :=
  { s with
    m_main_ram_seg := (data &&& 0xe000) <<< 3,
    m_dsp_addr_w := (data &&& 0x1fff) <<< 1 }

/-- `READ16_MEMBER(twincobr_state::twincobr_dsp_r)`: DSP IO port 1. -/
def twincobr_dsp_r (s : twincobr_state) : Nat × twincobr_state :=
  if s.m_main_ram_seg = 0x30000 ∨ s.m_main_ram_seg = 0x40000 ∨ s.m_main_ram_seg = 0x50000 then
    (s.mainspace.read_word (uint32 (s.m_main_ram_seg + s.m_dsp_addr_w)), s)
  else
    (0, s.logerror)

/-- `WRITE16_MEMBER(twincobr_state::twincobr_dsp_w)`: DSP IO port 1.  The case
`0x30000` falls through into the write of the cases `0x40000`, `0x50000`. -/
def twincobr_dsp_w (s : twincobr_state) (data : Nat) : twincobr_state :=
  let s1 := { s with m_dsp_execute := 0 }
  let s2 :=
    if s1.m_main_ram_seg = 0x30000 ∧ s1.m_dsp_addr_w < 3 ∧ data = 0 then
      { s1 with m_dsp_execute := 1 }
    else s1
  if s2.m_main_ram_seg = 0x30000 ∨ s2.m_main_ram_seg = 0x40000 ∨ s2.m_main_ram_seg = 0x50000 then
    { s2 with
      mainspace := s2.mainspace.write_word (uint32 (s2.m_main_ram_seg + s2.m_dsp_addr_w)) data }
  else
    s2.logerror

/-- `WRITE16_MEMBER(twincobr_state::wardner_dsp_addrsel_w)`: DSP IO port 0. -/
def wardner_dsp_addrsel_w (s : twincobr_state) (data : Nat) : twincobr_state :=
  let s1 := { s with
    m_main_ram_seg := data &&& 0xe000,
    m_dsp_addr_w := (data &&& 0x07ff) <<< 1 }
  if s1.m_main_ram_seg = 0x6000 then { s1 with m_main_ram_seg := 0x7000 } else s1

/-- `READ16_MEMBER(twincobr_state::wardner_dsp_r)`: DSP IO port 1. -/
def wardner_dsp_r (s : twincobr_state) : Nat × twincobr_state :=
  if s.m_main_ram_seg = 0x7000 ∨ s.m_main_ram_seg = 0x8000 ∨ s.m_main_ram_seg = 0xa000 then
    (s.mainspace.read_byte (uint32 (s.m_main_ram_seg + (s.m_dsp_addr_w + 0)))
      ||| (s.mainspace.read_byte (uint32 (s.m_main_ram_seg + (s.m_dsp_addr_w + 1))) <<< 8), s)
  else
    (0, s.logerror)

/-- `WRITE16_MEMBER(twincobr_state::wardner_dsp_w)`: DSP IO port 1.  The case
`0x7000` falls through into the writes of the cases `0x8000`, `0xa000`. -/
def wardner_dsp_w (s : twincobr_state) (data : Nat) : twincobr_state :=
  let s1 := { s with m_dsp_execute := 0 }
  let s2 :=
    if s1.m_main_ram_seg = 0x7000 ∧ s1.m_dsp_addr_w < 3 ∧ data = 0 then
      { s1 with m_dsp_execute := 1 }
    else s1
  if s2.m_main_ram_seg = 0x7000 ∨ s2.m_main_ram_seg = 0x8000 ∨ s2.m_main_ram_seg = 0xa000 then
    { s2 with
      mainspace :=
        (s2.mainspace.write_byte (uint32 (s2.m_main_ram_seg + (s2.m_dsp_addr_w + 0)))
            (data &&& 0xff)).write_byte
          (uint32 (s2.m_main_ram_seg + (s2.m_dsp_addr_w + 1))) ((data >>> 8) &&& 0xff) }
  else
    s2.logerror

/-- `WRITE16_MEMBER(twincobr_state::twincobr_dsp_bio_w)`: DSP IO port 3. -/
def twincobr_dsp_bio_w (s : twincobr_state) (data : Nat) : twincobr_state :=
  let s1 := if data &&& 0x8000 ≠ 0 then { s with m_dsp_BIO := CLEAR_LINE } else s
  if data = 0 then
    let s2 :=
      if s1.m_dsp_execute ≠ 0 then
        { s1 with maincpu_halt := CLEAR_LINE, m_dsp_execute := 0 }
      else s1
    { s2 with m_dsp_BIO := ASSERT_LINE }
  else s1

/-- `READ16_MEMBER(twincobr_state::fsharkbt_dsp_r)`: DSP IO port 2 of the
Flying Shark bootleg. -/
def fsharkbt_dsp_r (s : twincobr_state) : Nat × twincobr_state :=
  let s1 := { s with m_fsharkbt_8741 := int32 (s.m_fsharkbt_8741 + 1) }
  ((Int.land s1.m_fsharkbt_8741 1).toNat, s1)

/-- `WRITE16_MEMBER(twincobr_state::fsharkbt_dsp_w)`: the body is compiled
out (`#if 0`). -/
def fsharkbt_dsp_w (s : twincobr_state) (_data : Nat) : twincobr_state := s

/-- `READ_LINE_MEMBER(twincobr_state::twincobr_BIO_r)`. -/
def twincobr_BIO_r (s : twincobr_state) : Int := s.m_dsp_BIO

/-- `WRITE_LINE_MEMBER(twincobr_state::int_enable_w)`. -/
def int_enable_w (s : twincobr_state) (state : Int) : twincobr_state :=
  { s with m_intenable := state }

/-- `WRITE_LINE_MEMBER(twincobr_state::dsp_int_w)`. -/
def dsp_int_w (s : twincobr_state) (state : Int) : twincobr_state :=
  let s1 := { s with m_dsp_on := state }
  if state ≠ 0 then
    { s1 with dsp_halt := CLEAR_LINE, dsp_int := ASSERT_LINE, maincpu_halt := ASSERT_LINE }
  else
    { s1 with dsp_int := CLEAR_LINE, dsp_halt := ASSERT_LINE }

/-- The member `twincobr_state::twincobr_restore_dsp`. -/
def twincobr_restore_dsp (s : twincobr_state) : twincobr_state :=
  s.dsp_int_w s.m_dsp_on

/-- Logical negation of a C integer (`!state`). -/
def lnot (state : Int) : Int := if state = 0 then 1 else 0

/-- `WRITE_LINE_MEMBER(twincobr_state::coin_counter_1_w)`. -/
def coin_counter_1_w (s : twincobr_state) (state : Int) : twincobr_state :=
  { s with coin_counter_0 := state }

/-- `WRITE_LINE_MEMBER(twincobr_state::coin_counter_2_w)`. -/
def coin_counter_2_w (s : twincobr_state) (state : Int) : twincobr_state :=
  { s with coin_counter_1 := state }

/-- `WRITE_LINE_MEMBER(twincobr_state::coin_lockout_1_w)`. -/
def coin_lockout_1_w (s : twincobr_state) (state : Int) : twincobr_state :=
  { s with coin_counter_0 := lnot state }

/-- `WRITE_LINE_MEMBER(twincobr_state::coin_lockout_2_w)`. -/
def coin_lockout_2_w (s : twincobr_state) (state : Int) : twincobr_state :=
  { s with coin_counter_1 := lnot state }

/-- `READ16_MEMBER(twincobr_state::twincobr_sharedram_r)`. -/
def twincobr_sharedram_r (s : twincobr_state) (offset : Nat) : Nat :=
  s.m_sharedram.getD offset 0

/-- `WRITE16_MEMBER(twincobr_state::twincobr_sharedram_w)`;
`ACCESSING_BITS_0_7` is `(mem_mask & 0x00ff) != 0`. -/
def twincobr_sharedram_w (s : twincobr_state) (offset data mem_mask : Nat) : twincobr_state :=
  if mem_mask &&& 0x00ff ≠ 0 then
    { s with m_sharedram := s.m_sharedram.set offset (data &&& 0xff) }
  else s

/-- `MACHINE_RESET_MEMBER(twincobr_state,twincobr)`. -/
def machine_reset (s : twincobr_state) : twincobr_state :=
  { s with
    m_dsp_addr_w := 0,
    m_main_ram_seg := 0,
    m_dsp_execute := 0,
    m_dsp_BIO := CLEAR_LINE,
    m_fsharkbt_8741 := -1 }

end twincobr_state

/-- The items registered by `twincobr_state::twincobr_driver_savestate`. -/
structure save_items where
  m_intenable : Int
  m_dsp_on : Int
  m_dsp_addr_w : Nat
  m_main_ram_seg : Nat
  m_dsp_BIO : Int
  m_dsp_execute : Int
  m_fsharkbt_8741 : Int
deriving DecidableEq

namespace twincobr_state

/-- Modelled from the spec: saving a state writes out the items registered by
`twincobr_driver_savestate` (the save manager itself is not part of the
sources). -/
def twincobr_driver_savestate (s : twincobr_state) : save_items :=
  { m_intenable := s.m_intenable,
    m_dsp_on := s.m_dsp_on,
    m_dsp_addr_w := s.m_dsp_addr_w,
    m_main_ram_seg := s.m_main_ram_seg,
    m_dsp_BIO := s.m_dsp_BIO,
    m_dsp_execute := s.m_dsp_execute,
    m_fsharkbt_8741 := s.m_fsharkbt_8741 }

/-- Modelled from the spec: loading overwrites the registered items of the
running machine and then calls the registered postload function
`twincobr_restore_dsp`. -/
def postload (s : twincobr_state) (i : save_items) : twincobr_state :=
  twincobr_restore_dsp
    { s with
      m_intenable := i.m_intenable,
      m_dsp_on := i.m_dsp_on,
      m_dsp_addr_w := i.m_dsp_addr_w,
      m_main_ram_seg := i.m_main_ram_seg,
      m_dsp_BIO := i.m_dsp_BIO,
      m_dsp_execute := i.m_dsp_execute,
      m_fsharkbt_8741 := i.m_fsharkbt_8741 }

/-- A processor is halted when its `INPUT_LINE_HALT` is not cleared. -/
def halted (line : Int) : Prop := line ≠ CLEAR_LINE

instance (line : Int) : Decidable (halted line) := by
  unfold halted; infer_instance

/-- The state PRIMARY_ACTIVE of the handshake: main CPU running, DSP halted. -/
def primary_active (s : twincobr_state) : Prop :=
  ¬ halted s.maincpu_halt ∧ halted s.dsp_halt

/-- The state COPROCESSOR_ACTIVE of the handshake: DSP running, main CPU
halted. -/
def coprocessor_active (s : twincobr_state) : Prop :=
  halted s.maincpu_halt ∧ ¬ halted s.dsp_halt

/-- At most one of the two processors is running. -/
def mutual_exclusion (s : twincobr_state) : Prop :=
  ¬ (¬ halted s.maincpu_halt ∧ ¬ halted s.dsp_halt)

instance (s : twincobr_state) : Decidable (primary_active s) := by
  unfold primary_active; infer_instance

instance (s : twincobr_state) : Decidable (coprocessor_active s) := by
  unfold coprocessor_active; infer_instance

instance (s : twincobr_state) : Decidable (mutual_exclusion s) := by
  unfold mutual_exclusion; infer_instance

/-- The halt lines are those the DSP-enable flag dictates: flag set, the DSP
runs and the main CPU is halted; flag clear, the DSP is halted. -/
def halt_lines_follow_dsp_on (s : twincobr_state) : Prop :=
  if s.m_dsp_on ≠ 0 then s.dsp_halt = CLEAR_LINE ∧ s.maincpu_halt = ASSERT_LINE
  else s.dsp_halt = ASSERT_LINE

instance (s : twincobr_state) : Decidable (halt_lines_follow_dsp_on s) := by
  unfold halt_lines_follow_dsp_on; infer_instance

/-- Segment allow-list of `twincobr_dsp_r` / `twincobr_dsp_w`. -/
def twincobr_seg_ok (s : twincobr_state) : Prop :=
  s.m_main_ram_seg = 0x30000 ∨ s.m_main_ram_seg = 0x40000 ∨ s.m_main_ram_seg = 0x50000

/-- Segment allow-list of `wardner_dsp_r` / `wardner_dsp_w`. -/
def wardner_seg_ok (s : twincobr_state) : Prop :=
  s.m_main_ram_seg = 0x7000 ∨ s.m_main_ram_seg = 0x8000 ∨ s.m_main_ram_seg = 0xa000

instance (s : twincobr_state) : Decidable (twincobr_seg_ok s) := by
  unfold twincobr_seg_ok; infer_instance

instance (s : twincobr_state) : Decidable (wardner_seg_ok s) := by
  unfold wardner_seg_ok; infer_instance

end twincobr_state

/-- The operations of the module: one constructor per handler, with the
arguments the handler reads. -/
inductive Op where
  | twincobr_interrupt
  | wardner_interrupt
  | twincobr_dsp_addrsel_w (data : Nat)
  | twincobr_dsp_r
  | twincobr_dsp_w (data : Nat)
  | wardner_dsp_addrsel_w (data : Nat)
  | wardner_dsp_r
  | wardner_dsp_w (data : Nat)
  | twincobr_dsp_bio_w (data : Nat)
  | fsharkbt_dsp_r
  | fsharkbt_dsp_w (data : Nat)
  | twincobr_BIO_r
  | int_enable_w (state : Int)
  | dsp_int_w (state : Int)
  | twincobr_restore_dsp
  | coin_counter_1_w (state : Int)
  | coin_counter_2_w (state : Int)
  | coin_lockout_1_w (state : Int)
  | coin_lockout_2_w (state : Int)
  | twincobr_sharedram_r (offset : Nat)
  | twincobr_sharedram_w (offset data mem_mask : Nat)
  | machine_reset
  | postload (i : save_items)

namespace twincobr_state

/-- The state after one operation (the value a read returns is dropped). -/
def step (s : twincobr_state) : Op → twincobr_state
  | .twincobr_interrupt => s.twincobr_interrupt
  | .wardner_interrupt => s.wardner_interrupt
  | .twincobr_dsp_addrsel_w data => s.twincobr_dsp_addrsel_w data
  | .twincobr_dsp_r => s.twincobr_dsp_r.2
  | .twincobr_dsp_w data => s.twincobr_dsp_w data
  | .wardner_dsp_addrsel_w data => s.wardner_dsp_addrsel_w data
  | .wardner_dsp_r => s.wardner_dsp_r.2
  | .wardner_dsp_w data => s.wardner_dsp_w data
  | .twincobr_dsp_bio_w data => s.twincobr_dsp_bio_w data
  | .fsharkbt_dsp_r => s.fsharkbt_dsp_r.2
  | .fsharkbt_dsp_w data => s.fsharkbt_dsp_w data
  | .twincobr_BIO_r => s
  | .int_enable_w state => s.int_enable_w state
  | .dsp_int_w state => s.dsp_int_w state
  | .twincobr_restore_dsp => s.twincobr_restore_dsp
  | .coin_counter_1_w state => s.coin_counter_1_w state
  | .coin_counter_2_w state => s.coin_counter_2_w state
  | .coin_lockout_1_w state => s.coin_lockout_1_w state
  | .coin_lockout_2_w state => s.coin_lockout_2_w state
  | .twincobr_sharedram_r _ => s
  | .twincobr_sharedram_w offset data mem_mask => s.twincobr_sharedram_w offset data mem_mask
  | .machine_reset => s.machine_reset
  | .postload i => s.postload i

/-- The state after a sequence of operations, first operation first. -/
def run (s : twincobr_state) : List Op → twincobr_state
  | [] => s
  | op :: ops => run (s.step op) ops

/-- The operation is a BIO-control write of exactly 0 made while
execute-pending is set: the write that releases the main CPU. -/
def releases_maincpu (s : twincobr_state) : Op → Prop
  | .twincobr_dsp_bio_w data => data = 0 ∧ s.m_dsp_execute ≠ 0
  | _ => False

instance (s : twincobr_state) (op : Op) : Decidable (releases_maincpu s op) := by
  cases op <;> unfold releases_maincpu <;> infer_instance

/-- No operation of the sequence, run from `s`, releases the main CPU. -/
def no_release (s : twincobr_state) : List Op → Prop
  | [] => True
  | op :: ops => ¬ releases_maincpu s op ∧ no_release (s.step op) ops

/-- Decision procedure for `no_release`, by recursion on the sequence. -/
def no_release_dec : (s : twincobr_state) → (ops : List Op) → Decidable (no_release s ops)
  | _, [] => isTrue trivial
  | s, op :: ops =>
    match no_release_dec (s.step op) ops with
    | isTrue h =>
      if h1 : releases_maincpu s op then isFalse (fun hn => hn.1 h1) else isTrue ⟨h1, h⟩
    | isFalse h => isFalse (fun hn => h hn.2)

instance (s : twincobr_state) (ops : List Op) : Decidable (no_release s ops) :=
  no_release_dec s ops

/-- The state after `k` successive reads of port 2 (`fsharkbt_dsp_r`). -/
def fsharkbt_reads (s : twincobr_state) : Nat → twincobr_state
  | 0 => s
  | k + 1 => (fsharkbt_reads s k).fsharkbt_dsp_r.2

end twincobr_state

/-- A concrete PRIMARY_ACTIVE machine: main CPU running, DSP halted, every
register and every memory cell zero. -/
def power_on : twincobr_state :=
  { m_intenable := 0,
    m_dsp_on := 0,
    m_dsp_addr_w := 0,
    m_main_ram_seg := 0,
    m_dsp_BIO := CLEAR_LINE,
    m_dsp_execute := 0,
    m_fsharkbt_8741 := 0,
    m_sharedram := [],
    maincpu_halt := CLEAR_LINE,
    maincpu_irq0 := CLEAR_LINE,
    maincpu_irq4 := CLEAR_LINE,
    dsp_halt := ASSERT_LINE,
    dsp_int := CLEAR_LINE,
    mainspace := ⟨fun _ => 0⟩,
    coin_counter_0 := 0,
    coin_counter_1 := 0,
    logerror_out := [] }

/-- The hand-off sequence of Twin Cobra: the main CPU starts the DSP, the DSP
selects address `0x30000`, writes the zero sentinel there and writes 0 to the
BIO-control port. -/
def handoff : List Op :=
  [.dsp_int_w 1, .twincobr_dsp_addrsel_w 0x6000, .twincobr_dsp_w 0, .twincobr_dsp_bio_w 0]

/-- The operation is a port-1 write (`twincobr_dsp_w` or `wardner_dsp_w`). -/
def Op.is_port1_write : Op → Bool
  | .twincobr_dsp_w _ => true
  | .wardner_dsp_w _ => true
  | _ => false

/-- The operation is a BIO-control write of exactly 0. -/
def Op.is_bio_w_zero : Op → Bool
  | .twincobr_dsp_bio_w data => data == 0
  | _ => false

/-- The operation is the machine reset. -/
def Op.is_reset : Op → Bool
  | .machine_reset => true
  | _ => false

/-- The operation is the load of a snapshot by the save manager, which
overwrites every registered item before `twincobr_restore_dsp` runs. -/
def Op.is_postload : Op → Bool
  | .postload _ => true
  | _ => false

/-- A shared RAM of four bytes on the idle machine. -/
def power_on_ram : twincobr_state := { power_on with m_sharedram := [0x11, 0x22, 0x33, 0x44] }

/-- The machine with execute-pending armed and the segment register then set
to 0 by a further port-0 write. -/
def armed_then_deselected : twincobr_state :=
  (power_on.run handoff.dropLast).twincobr_dsp_addrsel_w 0

/-! ## Auxiliary lemmas -/

/-- Bit 0 of an integer (`x & 1`) is its remainder modulo 2, also for a
negative `x`. -/
theorem int_land_one (x : Int) : Int.land x 1 = x % 2 := by
  cases x with
  | ofNat n =>
    show ((n &&& 1 : Nat) : Int) = (n : Int) % 2
    rw [Nat.and_one_is_mod]; omega
  | negSucc n =>
    show ((Nat.ldiff 1 n : Nat) : Int) = Int.negSucc n % 2
    have h : Nat.ldiff 1 n = (n + 1) % 2 := by
      apply Nat.eq_of_testBit_eq
      intro i
      rw [Nat.testBit_ldiff]
      cases i with
      | zero =>
        simp only [Nat.testBit_zero]
        rcases Nat.mod_two_eq_zero_or_one n with h0 | h0
        · have h1 : (n + 1) % 2 = 1 := by omega
          simp [h0, h1]
        · have h1 : (n + 1) % 2 = 0 := by omega
          simp [h0, h1]
      | succ j =>
        simp [Nat.testBit_succ]
    rw [h, Int.negSucc_eq]; omega

/-! ## Address selection (port 0) -/

/-- C1. Twin Cobra port-0 write: whatever the prior state, the segment
register becomes `(v & 0xE000) << 3` and the offset register
`(v & 0x1FFF) << 1`; the input `0x6000` gives segment `0x30000`, offset 0. -/
theorem twincobr_dsp_addrsel_w_regs (s : twincobr_state) (v : Nat) :
    (s.twincobr_dsp_addrsel_w v).m_main_ram_seg = (v &&& 0xE000) <<< 3 ∧
    (s.twincobr_dsp_addrsel_w v).m_dsp_addr_w = (v &&& 0x1FFF) <<< 1 ∧
    (s.twincobr_dsp_addrsel_w 0x6000).m_main_ram_seg = 0x30000 ∧
    (s.twincobr_dsp_addrsel_w 0x6000).m_dsp_addr_w = 0 := by
  refine ⟨rfl, rfl, ?_, ?_⟩
  · show (0x6000 &&& 0xe000) <<< 3 = 0x30000
    decide
  · show (0x6000 &&& 0x1fff) <<< 1 = 0
    decide

/-- C2. Wardner port-0 write: whatever the prior state, the offset register
becomes `(v & 0x07FF) << 1`, the segment register becomes `0x7000` when
`(v & 0xE000) = 0x6000` and `v & 0xE000` otherwise; it is never `0x6000`. -/
theorem wardner_dsp_addrsel_w_regs (s : twincobr_state) (v : Nat) :
    (s.wardner_dsp_addrsel_w v).m_dsp_addr_w = (v &&& 0x07FF) <<< 1 ∧
    (s.wardner_dsp_addrsel_w v).m_main_ram_seg
      = (if v &&& 0xE000 = 0x6000 then 0x7000 else v &&& 0xE000) ∧
    (s.wardner_dsp_addrsel_w v).m_main_ram_seg ≠ 0x6000 := by
  unfold twincobr_state.wardner_dsp_addrsel_w
  by_cases h : v &&& 0xe000 = 0x6000
  · simp [h]
  · simp [h]

/-! ## Mutual exclusion of the two processors -/

namespace twincobr_state

/-- Every operation other than the releasing BIO-control write keeps at most
one processor running. -/
theorem step_halt_lines (s : twincobr_state) (op : Op) (h : ¬ releases_maincpu s op)
    (hs : s.mutual_exclusion) : (s.step op).mutual_exclusion := by
  cases op <;>
    simp only [step, twincobr_interrupt, wardner_interrupt, twincobr_dsp_addrsel_w,
      twincobr_dsp_r, twincobr_dsp_w, wardner_dsp_addrsel_w, wardner_dsp_r, wardner_dsp_w,
      fsharkbt_dsp_r, fsharkbt_dsp_w, int_enable_w, dsp_int_w, twincobr_restore_dsp,
      coin_counter_1_w, coin_counter_2_w, coin_lockout_1_w, coin_lockout_2_w,
      twincobr_sharedram_w, machine_reset, postload, logerror, mutual_exclusion, halted] at hs ⊢
  all_goals first
    | exact hs
    | (split_ifs <;> first | exact hs | simp)
    | skip
  case twincobr_dsp_bio_w data =>
    simp only [releases_maincpu, ne_eq, not_and, not_not] at h
    simp only [twincobr_dsp_bio_w, mutual_exclusion, halted]
    by_cases hd : data = 0
    · have he := h hd
      subst hd
      simpa [he] using hs
    · by_cases hb : data &&& 0x8000 = 0
      · simpa [hd, hb] using hs
      · simpa [hd, hb] using hs

end twincobr_state

/-- C3 (as stated, refuted). From the PRIMARY_ACTIVE machine `power_on` the
hand-off sequence (DSP enabled, address `0x30000` selected, zero sentinel
written, 0 written to the BIO-control port) reaches a state in which the
main CPU and the DSP are both unhalted. -/
theorem handoff_both_running :
    power_on.primary_active ∧ ¬ (power_on.run handoff).mutual_exclusion := by
  decide

/-- C3 (amended). From a PRIMARY_ACTIVE state, every sequence of operations
none of which is a BIO-control write of exactly 0 made while execute-pending
is set leads to a state in which at most one processor is unhalted. -/
theorem mutual_exclusion_until_release (s : twincobr_state) (ops : List Op)
    (h0 : s.primary_active) (h : s.no_release ops) : (s.run ops).mutual_exclusion := by
  have hs : s.mutual_exclusion := fun hn => hn.2 h0.2
  clear h0
  induction ops generalizing s with
  | nil => exact hs
  | cons op ops ih =>
    exact ih (s.step op) h.2 (twincobr_state.step_halt_lines s op h.1 hs)

/-- Witness for C3 (amended): the DSP is started, arms execute-pending, only
toggles its readiness and is stopped again. -/
theorem mutual_exclusion_until_release_witness :
    power_on.primary_active ∧
    power_on.no_release
      [.dsp_int_w 1, .twincobr_dsp_addrsel_w 0x6000, .twincobr_dsp_w 0,
        .twincobr_dsp_bio_w 0x8000, .dsp_int_w 0] ∧
    (power_on.run
      [.dsp_int_w 1, .twincobr_dsp_addrsel_w 0x6000, .twincobr_dsp_w 0,
        .twincobr_dsp_bio_w 0x8000, .dsp_int_w 0]).mutual_exclusion :=
  ⟨by decide, by decide,
    mutual_exclusion_until_release power_on _ (by decide) (by decide)⟩

/-! ## Execute trigger and BIO control -/

/-- C4. After a port-1 write the execute-pending flag is set exactly when the
segment register holds the lowest segment (`0x30000` for `twincobr_dsp_w`,
`0x7000` for `wardner_dsp_w`), the offset register is below 3 and the value
written is 0, whatever the flag was before. -/
theorem dsp_w_execute_iff (s : twincobr_state) (v : Nat) :
    ((s.twincobr_dsp_w v).m_dsp_execute ≠ 0 ↔
      (s.m_main_ram_seg = 0x30000 ∧ s.m_dsp_addr_w < 3 ∧ v = 0)) ∧
    ((s.wardner_dsp_w v).m_dsp_execute ≠ 0 ↔
      (s.m_main_ram_seg = 0x7000 ∧ s.m_dsp_addr_w < 3 ∧ v = 0)) := by
  constructor
  · by_cases hc : s.m_main_ram_seg = 0x30000 ∧ s.m_dsp_addr_w < 3 ∧ v = 0
    · simp [twincobr_state.twincobr_dsp_w, hc]
    · simp only [twincobr_state.twincobr_dsp_w, hc, if_false, iff_false, not_not]
      split_ifs <;> rfl
  · by_cases hc : s.m_main_ram_seg = 0x7000 ∧ s.m_dsp_addr_w < 3 ∧ v = 0
    · simp [twincobr_state.wardner_dsp_w, hc]
    · simp only [twincobr_state.wardner_dsp_w, hc, if_false, iff_false, not_not]
      split_ifs <;> rfl

/-- C5. BIO-control write of exactly 0: with execute-pending set, the main
CPU's halt line is cleared and execute-pending is cleared; with
execute-pending clear, both are unchanged; in both cases the BIO line is
asserted afterwards and the DSP's halt line is unchanged. -/
theorem dsp_bio_w_zero (s : twincobr_state) :
    (s.m_dsp_execute ≠ 0 →
      (s.twincobr_dsp_bio_w 0).maincpu_halt = CLEAR_LINE ∧
      (s.twincobr_dsp_bio_w 0).m_dsp_execute = 0) ∧
    (s.m_dsp_execute = 0 →
      (s.twincobr_dsp_bio_w 0).maincpu_halt = s.maincpu_halt ∧
      (s.twincobr_dsp_bio_w 0).m_dsp_execute = s.m_dsp_execute) ∧
    twincobr_state.m_dsp_BIO (s.twincobr_dsp_bio_w 0) = ASSERT_LINE ∧
    (s.twincobr_dsp_bio_w 0).dsp_halt = s.dsp_halt := by
  by_cases he : s.m_dsp_execute = 0
  · simp [twincobr_state.twincobr_dsp_bio_w, he]
  · simp [twincobr_state.twincobr_dsp_bio_w, he]

/-- Witness for C5: the write of 0 made after the hand-off prefix (execute
pending) and the same write made on the idle machine. -/
theorem dsp_bio_w_zero_witness :
    ((power_on.run handoff.dropLast).m_dsp_execute ≠ 0 ∧
      power_on.m_dsp_execute = 0) ∧
    ((power_on.run handoff.dropLast).twincobr_dsp_bio_w 0).maincpu_halt = CLEAR_LINE ∧
    (power_on.twincobr_dsp_bio_w 0).maincpu_halt = power_on.maincpu_halt :=
  ⟨⟨by decide, by decide⟩,
    ((dsp_bio_w_zero (power_on.run handoff.dropLast)).1 (by decide)).1,
    ((dsp_bio_w_zero power_on).2.1 (by decide)).1⟩

/-- C6. BIO-control write with bit 15 set: the BIO line is cleared and nothing
else changes; in particular execute-pending, both halt lines, the segment and
offset registers and the main CPU's memory are unchanged. -/
theorem dsp_bio_w_bit15 (s : twincobr_state) (v : Nat) (h : v &&& 0x8000 ≠ 0) :
    twincobr_state.m_dsp_BIO (s.twincobr_dsp_bio_w v) = CLEAR_LINE ∧
    (s.twincobr_dsp_bio_w v).m_dsp_execute = s.m_dsp_execute ∧
    (s.twincobr_dsp_bio_w v).maincpu_halt = s.maincpu_halt ∧
    (s.twincobr_dsp_bio_w v).dsp_halt = s.dsp_halt ∧
    (s.twincobr_dsp_bio_w v).m_main_ram_seg = s.m_main_ram_seg ∧
    (s.twincobr_dsp_bio_w v).m_dsp_addr_w = s.m_dsp_addr_w ∧
    (s.twincobr_dsp_bio_w v).mainspace = s.mainspace ∧
    s.twincobr_dsp_bio_w v = { s with m_dsp_BIO := CLEAR_LINE } := by
  have hv : v ≠ 0 := by
    rintro rfl
    simp at h
  simp [twincobr_state.twincobr_dsp_bio_w, h, hv]

/-- Witness for C6: the value `0x8000` written while execute-pending is set. -/
theorem dsp_bio_w_bit15_witness :
    0x8000 &&& 0x8000 ≠ 0 ∧
    (power_on.run handoff.dropLast).m_dsp_execute ≠ 0 ∧
    ((power_on.run handoff.dropLast).twincobr_dsp_bio_w 0x8000).m_dsp_execute
      = (power_on.run handoff.dropLast).m_dsp_execute ∧
    ((power_on.run handoff.dropLast).twincobr_dsp_bio_w 0x8000).maincpu_halt
      = (power_on.run handoff.dropLast).maincpu_halt :=
  ⟨by decide, by decide,
    (dsp_bio_w_bit15 (power_on.run handoff.dropLast) 0x8000 (by decide)).2.1,
    (dsp_bio_w_bit15 (power_on.run handoff.dropLast) 0x8000 (by decide)).2.2.1⟩

/-! ## Invalid segment -/

/-- C7. Port-1 access with the segment register outside the allow-list: the
read returns 0, the read and the write leave the main CPU's memory as it was
(hence every address keeps its content), and the access completes with one
entry added to the error log. -/
theorem dsp_port1_invalid_segment (s : twincobr_state) (v : Nat) :
    (¬ s.twincobr_seg_ok →
      s.twincobr_dsp_r.1 = 0 ∧
      s.twincobr_dsp_r.2.mainspace = s.mainspace ∧
      (s.twincobr_dsp_w v).mainspace = s.mainspace ∧
      (∀ a, (s.twincobr_dsp_w v).mainspace.cell a = s.mainspace.cell a) ∧
      s.twincobr_dsp_r.2.logerror_out.length = s.logerror_out.length + 1 ∧
      (s.twincobr_dsp_w v).logerror_out.length = s.logerror_out.length + 1) ∧
    (¬ s.wardner_seg_ok →
      s.wardner_dsp_r.1 = 0 ∧
      s.wardner_dsp_r.2.mainspace = s.mainspace ∧
      (s.wardner_dsp_w v).mainspace = s.mainspace ∧
      (∀ a, (s.wardner_dsp_w v).mainspace.cell a = s.mainspace.cell a) ∧
      s.wardner_dsp_r.2.logerror_out.length = s.logerror_out.length + 1 ∧
      (s.wardner_dsp_w v).logerror_out.length = s.logerror_out.length + 1) := by
  constructor
  · intro h
    have h3 : ¬ s.m_main_ram_seg = 0x30000 := fun e => h (Or.inl e)
    have h4 : ¬ s.m_main_ram_seg = 0x40000 := fun e => h (Or.inr (Or.inl e))
    have h5 : ¬ s.m_main_ram_seg = 0x50000 := fun e => h (Or.inr (Or.inr e))
    simp [twincobr_state.twincobr_dsp_r, twincobr_state.twincobr_dsp_w,
      twincobr_state.logerror, h3, h4, h5]
  · intro h
    have h7 : ¬ s.m_main_ram_seg = 0x7000 := fun e => h (Or.inl e)
    have h8 : ¬ s.m_main_ram_seg = 0x8000 := fun e => h (Or.inr (Or.inl e))
    have ha : ¬ s.m_main_ram_seg = 0xa000 := fun e => h (Or.inr (Or.inr e))
    simp [twincobr_state.wardner_dsp_r, twincobr_state.wardner_dsp_w,
      twincobr_state.logerror, h7, h8, ha]

/-- Witness for C7: right after power-on the segment register is 0, outside
both allow-lists. -/
theorem dsp_port1_invalid_segment_witness :
    (¬ power_on.twincobr_seg_ok ∧ ¬ power_on.wardner_seg_ok) ∧
    power_on.twincobr_dsp_r.1 = 0 ∧
    (power_on.twincobr_dsp_w 0x1234).mainspace = power_on.mainspace ∧
    power_on.wardner_dsp_r.1 = 0 ∧
    (power_on.wardner_dsp_w 0x1234).mainspace = power_on.mainspace :=
  ⟨⟨by decide, by decide⟩,
    ((dsp_port1_invalid_segment power_on 0x1234).1 (by decide)).1,
    ((dsp_port1_invalid_segment power_on 0x1234).1 (by decide)).2.2.1,
    ((dsp_port1_invalid_segment power_on 0x1234).2 (by decide)).1,
    ((dsp_port1_invalid_segment power_on 0x1234).2 (by decide)).2.2.1⟩

/-! ## Save and restore -/

/-- C8 (as stated, refuted). The state reached from `power_on` by the hand-off
sequence has the main CPU released while the DSP-enable flag is still set;
saving it and restoring the snapshot halts the main CPU again, so the halt
lines after the round trip differ from those before the save. -/
theorem restore_after_handoff_halts_maincpu :
    ((power_on.run handoff).postload
        (power_on.run handoff).twincobr_driver_savestate).maincpu_halt
      ≠ (power_on.run handoff).maincpu_halt := by
  decide

/-- The lines and the persisted fields left by loading a snapshot into a
running machine: `twincobr_restore_dsp` sets the DSP's halt line and, when
the DSP-enable flag is set, the main CPU's halt line. -/
theorem postload_lines (r : twincobr_state) (i : save_items) :
    (r.postload i).twincobr_driver_savestate = i ∧
    (r.postload i).dsp_halt = (if i.m_dsp_on ≠ 0 then CLEAR_LINE else ASSERT_LINE) ∧
    (r.postload i).maincpu_halt = (if i.m_dsp_on ≠ 0 then ASSERT_LINE else r.maincpu_halt) := by
  by_cases hon : i.m_dsp_on = 0
  · refine ⟨?_, ?_, ?_⟩
    · cases i
      simp only at hon
      subst hon
      simp [twincobr_state.postload, twincobr_state.twincobr_restore_dsp,
        twincobr_state.dsp_int_w, twincobr_state.twincobr_driver_savestate]
    · simp [twincobr_state.postload, twincobr_state.twincobr_restore_dsp,
        twincobr_state.dsp_int_w, hon]
    · simp [twincobr_state.postload, twincobr_state.twincobr_restore_dsp,
        twincobr_state.dsp_int_w, hon]
  · simp [twincobr_state.postload, twincobr_state.twincobr_restore_dsp,
      twincobr_state.dsp_int_w, twincobr_state.twincobr_driver_savestate, hon]

/-- Every operation other than the releasing BIO-control write keeps the halt
lines in agreement with the DSP-enable flag. -/
theorem step_follow_dsp_on (s : twincobr_state) (op : Op)
    (h : ¬ s.releases_maincpu op) (hs : s.halt_lines_follow_dsp_on) :
    (s.step op).halt_lines_follow_dsp_on := by
  cases op with
  | twincobr_dsp_bio_w data =>
    simp only [twincobr_state.releases_maincpu, ne_eq, not_and, not_not] at h
    simp only [twincobr_state.halt_lines_follow_dsp_on] at hs
    simp only [twincobr_state.step, twincobr_state.twincobr_dsp_bio_w,
      twincobr_state.halt_lines_follow_dsp_on]
    by_cases hd : data = 0
    · have he := h hd
      subst hd
      simpa [he] using hs
    · by_cases hb : data &&& 0x8000 = 0
      · simpa [hd, hb] using hs
      · simpa [hd, hb] using hs
  | dsp_int_w state =>
    by_cases hst : state = 0
    · simp [twincobr_state.step, twincobr_state.dsp_int_w,
        twincobr_state.halt_lines_follow_dsp_on, hst]
    · simp [twincobr_state.step, twincobr_state.dsp_int_w,
        twincobr_state.halt_lines_follow_dsp_on, hst]
  | twincobr_restore_dsp =>
    by_cases hst : s.m_dsp_on = 0
    · simp [twincobr_state.step, twincobr_state.twincobr_restore_dsp, twincobr_state.dsp_int_w,
        twincobr_state.halt_lines_follow_dsp_on, hst]
    · simp [twincobr_state.step, twincobr_state.twincobr_restore_dsp, twincobr_state.dsp_int_w,
        twincobr_state.halt_lines_follow_dsp_on, hst]
  | postload i =>
    by_cases hst : i.m_dsp_on = 0
    · simp [twincobr_state.step, twincobr_state.postload, twincobr_state.twincobr_restore_dsp,
        twincobr_state.dsp_int_w, twincobr_state.halt_lines_follow_dsp_on, hst]
    · simp [twincobr_state.step, twincobr_state.postload, twincobr_state.twincobr_restore_dsp,
        twincobr_state.dsp_int_w, twincobr_state.halt_lines_follow_dsp_on, hst]
  | _ =>
    simp only [twincobr_state.step, twincobr_state.twincobr_interrupt,
      twincobr_state.wardner_interrupt, twincobr_state.twincobr_dsp_addrsel_w,
      twincobr_state.twincobr_dsp_r, twincobr_state.twincobr_dsp_w,
      twincobr_state.wardner_dsp_addrsel_w, twincobr_state.wardner_dsp_r,
      twincobr_state.wardner_dsp_w, twincobr_state.fsharkbt_dsp_r,
      twincobr_state.fsharkbt_dsp_w, twincobr_state.int_enable_w,
      twincobr_state.coin_counter_1_w,
      twincobr_state.coin_counter_2_w, twincobr_state.coin_lockout_1_w,
      twincobr_state.coin_lockout_2_w, twincobr_state.twincobr_sharedram_w,
      twincobr_state.machine_reset, twincobr_state.logerror,
      twincobr_state.halt_lines_follow_dsp_on] at hs ⊢
    first
      | exact hs
      | (split_ifs at hs ⊢ <;> exact hs)

/-- A sequence of operations without a releasing BIO-control write keeps the
halt lines in agreement with the DSP-enable flag. -/
theorem run_follow_dsp_on (s : twincobr_state) (ops : List Op)
    (hs : s.halt_lines_follow_dsp_on) (hn : s.no_release ops) :
    (s.run ops).halt_lines_follow_dsp_on := by
  induction ops generalizing s with
  | nil => exact hs
  | cons op ops ih => exact ih (s.step op) (step_follow_dsp_on s op hn.1 hs) hn.2

/-- C8 (amended). Saving a state `s` and restoring the snapshot into a running
machine `r`, followed by `twincobr_restore_dsp`, reproduces every persisted
field.  The reapply sets the halt lines from the restored DSP-enable flag
alone: flag set, the DSP runs and the main CPU is halted; flag clear, the DSP
is halted and the main CPU's halt line stays as it is in `r`.  So both halt
lines are those of `s` exactly when the halt lines of `s` agreed with its
DSP-enable flag and, with the flag clear, the main CPU's halt line of `r` is
that of `s` (as when the snapshot is restored into `s` itself).  The
agreement holds in every state reached from a state that has it by
operations none of which is a BIO-control write of 0 made while
execute-pending is set. -/
theorem save_restore_round_trip (s r : twincobr_state) :
    (r.postload s.twincobr_driver_savestate).twincobr_driver_savestate
      = s.twincobr_driver_savestate ∧
    (r.postload s.twincobr_driver_savestate).dsp_halt
      = (if s.m_dsp_on ≠ 0 then CLEAR_LINE else ASSERT_LINE) ∧
    (r.postload s.twincobr_driver_savestate).maincpu_halt
      = (if s.m_dsp_on ≠ 0 then ASSERT_LINE else r.maincpu_halt) ∧
    (((r.postload s.twincobr_driver_savestate).maincpu_halt = s.maincpu_halt ∧
        (r.postload s.twincobr_driver_savestate).dsp_halt = s.dsp_halt) ↔
      (s.halt_lines_follow_dsp_on ∧ (s.m_dsp_on = 0 → r.maincpu_halt = s.maincpu_halt))) ∧
    (s.halt_lines_follow_dsp_on →
      (s.postload s.twincobr_driver_savestate).maincpu_halt = s.maincpu_halt ∧
      (s.postload s.twincobr_driver_savestate).dsp_halt = s.dsp_halt) ∧
    (∀ ops : List Op, s.halt_lines_follow_dsp_on → s.no_release ops →
      (s.run ops).halt_lines_follow_dsp_on) := by
  have hiff : ∀ q : twincobr_state,
      (((q.postload s.twincobr_driver_savestate).maincpu_halt = s.maincpu_halt ∧
          (q.postload s.twincobr_driver_savestate).dsp_halt = s.dsp_halt) ↔
        (s.halt_lines_follow_dsp_on ∧ (s.m_dsp_on = 0 → q.maincpu_halt = s.maincpu_halt))) := by
    intro q
    obtain ⟨-, hd, hm⟩ := postload_lines q s.twincobr_driver_savestate
    rw [hd, hm]
    show ((if s.m_dsp_on ≠ 0 then ASSERT_LINE else q.maincpu_halt) = s.maincpu_halt ∧
      (if s.m_dsp_on ≠ 0 then CLEAR_LINE else ASSERT_LINE) = s.dsp_halt) ↔
      ((if s.m_dsp_on ≠ 0 then s.dsp_halt = CLEAR_LINE ∧ s.maincpu_halt = ASSERT_LINE
        else s.dsp_halt = ASSERT_LINE) ∧ (s.m_dsp_on = 0 → q.maincpu_halt = s.maincpu_halt))
    by_cases hon : s.m_dsp_on = 0
    · simp only [hon, ne_eq, not_true_eq_false, if_false, true_implies]
      constructor
      · rintro ⟨h1, h2⟩; exact ⟨h2.symm, h1⟩
      · rintro ⟨h1, h2⟩; exact ⟨h2, h1.symm⟩
    · simp only [hon, ne_eq, not_false_eq_true, if_true, false_implies, and_true]
      constructor
      · rintro ⟨h1, h2⟩; exact ⟨h2.symm, h1.symm⟩
      · rintro ⟨h1, h2⟩; exact ⟨h2.symm, h1.symm⟩
  exact ⟨(postload_lines r _).1, (postload_lines r _).2.1, (postload_lines r _).2.2,
    hiff r, fun h => (hiff s).2 ⟨h, fun _ => rfl⟩, fun ops h hn => run_follow_dsp_on s ops h hn⟩

/-- Witness for C8 (amended): the snapshot of the machine with the DSP started
and execute-pending armed is restored into the idle machine, whose halt
lines are the opposite ones; that armed machine is reached from the idle
one without a releasing write. -/
theorem save_restore_round_trip_witness :
    ((power_on.run handoff.dropLast).halt_lines_follow_dsp_on ∧
      ((power_on.run handoff.dropLast).m_dsp_on = 0 →
        power_on.maincpu_halt = (power_on.run handoff.dropLast).maincpu_halt) ∧
      power_on.maincpu_halt ≠ (power_on.run handoff.dropLast).maincpu_halt ∧
      power_on.dsp_halt ≠ (power_on.run handoff.dropLast).dsp_halt) ∧
    ((power_on.postload (power_on.run handoff.dropLast).twincobr_driver_savestate).maincpu_halt
        = (power_on.run handoff.dropLast).maincpu_halt ∧
      (power_on.postload (power_on.run handoff.dropLast).twincobr_driver_savestate).dsp_halt
        = (power_on.run handoff.dropLast).dsp_halt) ∧
    (power_on.halt_lines_follow_dsp_on ∧ power_on.no_release handoff.dropLast) ∧
    (power_on.run handoff.dropLast).halt_lines_follow_dsp_on :=
  ⟨⟨by decide, by decide, by decide, by decide⟩,
    (save_restore_round_trip (power_on.run handoff.dropLast) power_on).2.2.2.1.2
      ⟨by decide, by decide⟩,
    ⟨by decide, by decide⟩,
    (save_restore_round_trip power_on power_on).2.2.2.2.2 handoff.dropLast
      (by decide) (by decide)⟩

/-! ## Port 2 of the Flying Shark bootleg -/

/-- Wrapping to 32 bits keeps the parity. -/
theorem int32_mod_two (x : Int) : int32 x % 2 = x % 2 := by
  unfold int32 Int.bmod
  simp only []
  split_ifs <;> omega

/-- The port-2 counter after `k` reads following a machine reset. -/
theorem fsharkbt_reads_counter (s : twincobr_state) (k : Nat) :
    (s.machine_reset.fsharkbt_reads k).m_fsharkbt_8741 = int32 ((k : Int) - 1) := by
  induction k with
  | zero =>
    show (-1 : Int) = int32 (((0 : Nat) : Int) - 1)
    decide
  | succ k ih =>
    show int32 ((s.machine_reset.fsharkbt_reads k).m_fsharkbt_8741 + 1) = _
    rw [ih]
    unfold int32
    rw [Int.bmod_add_bmod_congr]
    congr 1
    push_cast
    ring

/-- C9. Port-2 reads after machine reset: the counter starts at the sentinel
-1, each read adds 1 to it (as a 32-bit integer) and returns its lowest bit,
so the read number `k + 1` returns `k mod 2` and the first three reads return
0, 1, 0; a write to the port changes nothing. -/
theorem fsharkbt_read_sequence (s : twincobr_state) (k : Nat) :
    s.machine_reset.m_fsharkbt_8741 = -1 ∧
    s.fsharkbt_dsp_r.2.m_fsharkbt_8741 = int32 (s.m_fsharkbt_8741 + 1) ∧
    s.fsharkbt_dsp_r.1 = (s.fsharkbt_dsp_r.2.m_fsharkbt_8741 % 2).toNat ∧
    (s.machine_reset.fsharkbt_reads k).fsharkbt_dsp_r.1 = k % 2 ∧
    (s.machine_reset.fsharkbt_reads 0).fsharkbt_dsp_r = (0, s.machine_reset.fsharkbt_reads 1) ∧
    (s.machine_reset.fsharkbt_reads 1).fsharkbt_dsp_r = (1, s.machine_reset.fsharkbt_reads 2) ∧
    (s.machine_reset.fsharkbt_reads 2).fsharkbt_dsp_r = (0, s.machine_reset.fsharkbt_reads 3) ∧
    (s.machine_reset.fsharkbt_reads 1).m_fsharkbt_8741 = 0 ∧
    (s.machine_reset.fsharkbt_reads 2).m_fsharkbt_8741 = 1 ∧
    (s.machine_reset.fsharkbt_reads 3).m_fsharkbt_8741 = 2 ∧
    (∀ d : Nat, s.fsharkbt_dsp_w d = s) := by
  have hval : ∀ j : Nat, (s.machine_reset.fsharkbt_reads j).fsharkbt_dsp_r.1 = j % 2 := by
    intro j
    show (Int.land (int32 ((s.machine_reset.fsharkbt_reads j).m_fsharkbt_8741 + 1)) 1).toNat
      = j % 2
    rw [fsharkbt_reads_counter, int_land_one, int32_mod_two]
    have h2 := int32_mod_two ((j : Int) - 1)
    have hj : (int32 ((j : Int) - 1) + 1) % 2 = ((j % 2 : Nat) : Int) := by omega
    rw [hj, Int.toNat_ofNat]
  have h1 : (s.machine_reset.fsharkbt_reads 1).m_fsharkbt_8741 = 0 := by
    rw [fsharkbt_reads_counter]; decide
  have h2 : (s.machine_reset.fsharkbt_reads 2).m_fsharkbt_8741 = 1 := by
    rw [fsharkbt_reads_counter]; decide
  have h3 : (s.machine_reset.fsharkbt_reads 3).m_fsharkbt_8741 = 2 := by
    rw [fsharkbt_reads_counter]; decide
  refine ⟨rfl, rfl, ?_, hval k, ?_, ?_, ?_, h1, h2, h3, fun _ => rfl⟩
  · show (Int.land (int32 (s.m_fsharkbt_8741 + 1)) 1).toNat = _
    rw [int_land_one]
    rfl
  · exact Prod.ext (hval 0) rfl
  · exact Prod.ext (hval 1) rfl
  · exact Prod.ext (hval 2) rfl

/-! ## DSP enable line -/

/-- C10. DSP-enable asserted: `dsp_int_w` with a non-zero state stores it in
the DSP-enable flag, asserts the DSP's interrupt input, clears the DSP's halt
line and asserts the main CPU's halt line, so the machine is
COPROCESSOR_ACTIVE whatever the halt lines were before. -/
theorem dsp_int_w_on (s : twincobr_state) (state : Int) (h : state ≠ 0) :
    (s.dsp_int_w state).m_dsp_on = state ∧
    (s.dsp_int_w state).m_dsp_on ≠ 0 ∧
    (s.dsp_int_w state).dsp_int = ASSERT_LINE ∧
    (s.dsp_int_w state).dsp_halt = CLEAR_LINE ∧
    (s.dsp_int_w state).maincpu_halt = ASSERT_LINE ∧
    (s.dsp_int_w state).coprocessor_active := by
  simp [twincobr_state.dsp_int_w, twincobr_state.coprocessor_active,
    twincobr_state.halted, h]

/-- Witness for C10: the line asserted on the idle machine, and on a machine
whose two processors are both running. -/
theorem dsp_int_w_on_witness :
    (1 : Int) ≠ 0 ∧
    (power_on.dsp_int_w 1).coprocessor_active ∧
    ((power_on.run handoff).dsp_int_w 1).coprocessor_active :=
  ⟨by decide, (dsp_int_w_on power_on 1 (by decide)).2.2.2.2.2,
    (dsp_int_w_on (power_on.run handoff) 1 (by decide)).2.2.2.2.2⟩

/-! ## Port-1 writes in closed form -/

/-- Two consecutive 32-bit addresses are different. -/
theorem uint32_succ_ne (x : Nat) : uint32 (x + 1) ≠ uint32 x := by
  unfold uint32
  omega

/-- A 16-bit value is the low byte combined with the high byte shifted left by
eight places. -/
theorem bytes_assemble (d : Nat) (hd : d < 65536) :
    (d &&& 0xff) ||| (((d >>> 8) &&& 0xff) <<< 8) = d := by
  have h1 : d &&& 0xff = d % 256 := Nat.and_pow_two_sub_one_eq_mod d 8
  have h2 : (d >>> 8) &&& 0xff = (d >>> 8) % 256 := Nat.and_pow_two_sub_one_eq_mod (d >>> 8) 8
  have h3 : d >>> 8 = d / 256 := Nat.shiftRight_eq_div_pow d 8
  have h4 : d % 256 < 2 ^ 8 := by omega
  rw [h1, h2, h3, Nat.shiftLeft_eq, Nat.or_comm, Nat.mul_comm, ← Nat.mul_add_lt_is_or h4]
  omega

/-- A byte mask yields a byte. -/
theorem and_ff_lt (x : Nat) : x &&& 0xff < 256 := by
  have h : x &&& 0xff = x % 256 := Nat.and_pow_two_sub_one_eq_mod x 8
  omega

/-- Closed form of `twincobr_dsp_w` for a segment of the allow-list. -/
theorem twincobr_dsp_w_valid (s : twincobr_state) (d : Nat) (h : s.twincobr_seg_ok) :
    s.twincobr_dsp_w d =
      { s with
        m_dsp_execute :=
          if s.m_main_ram_seg = 0x30000 ∧ s.m_dsp_addr_w < 3 ∧ d = 0 then 1 else 0,
        mainspace := s.mainspace.write_word (uint32 (s.m_main_ram_seg + s.m_dsp_addr_w)) d } := by
  unfold twincobr_state.twincobr_seg_ok at h
  by_cases hc : s.m_main_ram_seg = 0x30000 ∧ s.m_dsp_addr_w < 3 ∧ d = 0
  · simp [twincobr_state.twincobr_dsp_w, h, hc]
  · simp [twincobr_state.twincobr_dsp_w, h, hc]

/-- Closed form of `wardner_dsp_w` for a segment of the allow-list. -/
theorem wardner_dsp_w_valid (s : twincobr_state) (d : Nat) (h : s.wardner_seg_ok) :
    s.wardner_dsp_w d =
      { s with
        m_dsp_execute :=
          if s.m_main_ram_seg = 0x7000 ∧ s.m_dsp_addr_w < 3 ∧ d = 0 then 1 else 0,
        mainspace :=
          (s.mainspace.write_byte (uint32 (s.m_main_ram_seg + (s.m_dsp_addr_w + 0)))
              (d &&& 0xff)).write_byte
            (uint32 (s.m_main_ram_seg + (s.m_dsp_addr_w + 1))) ((d >>> 8) &&& 0xff) } := by
  unfold twincobr_state.wardner_seg_ok at h
  by_cases hc : s.m_main_ram_seg = 0x7000 ∧ s.m_dsp_addr_w < 3 ∧ d = 0
  · simp [twincobr_state.wardner_dsp_w, h, hc]
  · simp [twincobr_state.wardner_dsp_w, h, hc]

/-- Closed form of `twincobr_dsp_w` for a segment outside the allow-list. -/
theorem twincobr_dsp_w_invalid (s : twincobr_state) (d : Nat) (h : ¬ s.twincobr_seg_ok) :
    s.twincobr_dsp_w d = twincobr_state.logerror { s with m_dsp_execute := 0 } := by
  unfold twincobr_state.twincobr_seg_ok at h
  have h3 : ¬ s.m_main_ram_seg = 0x30000 := fun e => h (Or.inl e)
  have h4 : ¬ s.m_main_ram_seg = 0x40000 := fun e => h (Or.inr (Or.inl e))
  have h5 : ¬ s.m_main_ram_seg = 0x50000 := fun e => h (Or.inr (Or.inr e))
  simp [twincobr_state.twincobr_dsp_w, h3, h4, h5]

/-- Closed form of `wardner_dsp_w` for a segment outside the allow-list. -/
theorem wardner_dsp_w_invalid (s : twincobr_state) (d : Nat) (h : ¬ s.wardner_seg_ok) :
    s.wardner_dsp_w d = twincobr_state.logerror { s with m_dsp_execute := 0 } := by
  unfold twincobr_state.wardner_seg_ok at h
  have h7 : ¬ s.m_main_ram_seg = 0x7000 := fun e => h (Or.inl e)
  have h8 : ¬ s.m_main_ram_seg = 0x8000 := fun e => h (Or.inr (Or.inl e))
  have ha : ¬ s.m_main_ram_seg = 0xa000 := fun e => h (Or.inr (Or.inr e))
  simp [twincobr_state.wardner_dsp_w, h7, h8, ha]

/-! ## DSP enable line de-asserted -/

/-- C11. DSP-enable de-asserted: `dsp_int_w` with state 0 clears the DSP-enable
flag, clears the DSP's interrupt input and asserts the DSP's halt line; the
main CPU's halt line is left as it was (a halted main CPU stays halted), and
the segment, offset, BIO and execute-pending registers are unchanged. -/
theorem dsp_int_w_off (s : twincobr_state) :
    (s.dsp_int_w 0).m_dsp_on = 0 ∧
    (s.dsp_int_w 0).dsp_int = CLEAR_LINE ∧
    (s.dsp_int_w 0).dsp_halt = ASSERT_LINE ∧
    (s.dsp_int_w 0).maincpu_halt = s.maincpu_halt ∧
    (twincobr_state.halted s.maincpu_halt ↔ twincobr_state.halted (s.dsp_int_w 0).maincpu_halt) ∧
    (s.dsp_int_w 0).m_main_ram_seg = s.m_main_ram_seg ∧
    (s.dsp_int_w 0).m_dsp_addr_w = s.m_dsp_addr_w ∧
    twincobr_state.m_dsp_BIO (s.dsp_int_w 0) = s.m_dsp_BIO ∧
    (s.dsp_int_w 0).m_dsp_execute = s.m_dsp_execute := by
  simp [twincobr_state.dsp_int_w]

/-! ## Port-1 write followed by a read -/

/-- C12. For a segment of the allow-list and a 16-bit value `d`, a port-1
write of `d` followed at once by a port-1 read returns `d`, for Twin Cobra
and for Wardner; the case in which the write arms execute-pending (lowest
segment, offset below 3, `d = 0`) is included. -/
theorem dsp_port1_write_read (s : twincobr_state) (d : Nat) (hd : d < 65536) :
    (s.twincobr_seg_ok → (s.twincobr_dsp_w d).twincobr_dsp_r.1 = d) ∧
    (s.wardner_seg_ok → (s.wardner_dsp_w d).wardner_dsp_r.1 = d) := by
  constructor
  · intro h
    rw [twincobr_dsp_w_valid s d h]
    unfold twincobr_state.twincobr_seg_ok at h
    simp only [twincobr_state.twincobr_dsp_r, h, if_true, address_space.read_word,
      address_space.write_word]
    omega
  · intro h
    rw [wardner_dsp_w_valid s d h]
    unfold twincobr_state.wardner_seg_ok at h
    have hne := uint32_succ_ne (s.m_main_ram_seg + s.m_dsp_addr_w)
    have hl := and_ff_lt d
    have hh := and_ff_lt (d >>> 8)
    simp only [twincobr_state.wardner_dsp_r, h, if_true, address_space.read_byte,
      address_space.write_byte, Nat.add_zero, if_true, ← Nat.add_assoc, hne.symm, if_false,
      Nat.mod_eq_of_lt hl, Nat.mod_eq_of_lt hh]
    exact bytes_assemble d hd

/-- Witness for C12: Twin Cobra with segment `0x30000`, offset 0, and Wardner
with segment `0x7000`, offset 0; the value 0 arms execute-pending and is
read back. -/
theorem dsp_port1_write_read_witness :
    (0 < 65536 ∧ (power_on.twincobr_dsp_addrsel_w 0x6000).twincobr_seg_ok ∧
      (power_on.wardner_dsp_addrsel_w 0x6000).wardner_seg_ok) ∧
    (((power_on.twincobr_dsp_addrsel_w 0x6000).twincobr_dsp_w 0).m_dsp_execute ≠ 0 ∧
      ((power_on.wardner_dsp_addrsel_w 0x6000).wardner_dsp_w 0).m_dsp_execute ≠ 0) ∧
    ((power_on.twincobr_dsp_addrsel_w 0x6000).twincobr_dsp_w 0).twincobr_dsp_r.1 = 0 ∧
    ((power_on.wardner_dsp_addrsel_w 0x6000).wardner_dsp_w 0).wardner_dsp_r.1 = 0 :=
  ⟨⟨by decide, by decide, by decide⟩, ⟨by decide, by decide⟩,
    (dsp_port1_write_read (power_on.twincobr_dsp_addrsel_w 0x6000) 0 (by decide)).1 (by decide),
    (dsp_port1_write_read (power_on.wardner_dsp_addrsel_w 0x6000) 0 (by decide)).2 (by decide)⟩

/-! ## Memory effect of a port-1 write -/

/-- C13. For a segment of the allow-list and a 16-bit value `d`:
`twincobr_dsp_w` stores the word `d` at address `m_main_ram_seg + m_dsp_addr_w`
and changes no other location; `wardner_dsp_w` stores the byte `d & 0xFF` at
that address and the byte `(d >> 8) & 0xFF` at the next one and changes no
other location (with segment `0x7000`, offset 0 and `d = 0` the bytes at
`0x7000` and `0x7001` become 0).  Neither write, valid or not, changes the
segment, offset or BIO registers or the halt lines.  The address is a 32-bit
sum, and is the plain sum when that fits 32 bits. -/
theorem dsp_port1_write_memory (s : twincobr_state) (d : Nat) (hd : d < 65536) :
    (s.twincobr_seg_ok →
      (s.twincobr_dsp_w d).mainspace.cell (uint32 (s.m_main_ram_seg + s.m_dsp_addr_w)) = d ∧
      (∀ a, a ≠ uint32 (s.m_main_ram_seg + s.m_dsp_addr_w) →
        (s.twincobr_dsp_w d).mainspace.cell a = s.mainspace.cell a)) ∧
    (s.wardner_seg_ok →
      (s.wardner_dsp_w d).mainspace.cell (uint32 (s.m_main_ram_seg + s.m_dsp_addr_w))
        = d &&& 0xFF ∧
      (s.wardner_dsp_w d).mainspace.cell (uint32 (s.m_main_ram_seg + s.m_dsp_addr_w + 1))
        = (d >>> 8) &&& 0xFF ∧
      (∀ a, a ≠ uint32 (s.m_main_ram_seg + s.m_dsp_addr_w) →
        a ≠ uint32 (s.m_main_ram_seg + s.m_dsp_addr_w + 1) →
        (s.wardner_dsp_w d).mainspace.cell a = s.mainspace.cell a)) ∧
    (s.m_main_ram_seg = 0x7000 → s.m_dsp_addr_w = 0 →
      (s.wardner_dsp_w 0).mainspace.cell 0x7000 = 0 ∧
      (s.wardner_dsp_w 0).mainspace.cell 0x7001 = 0) ∧
    (s.m_main_ram_seg + s.m_dsp_addr_w + 1 < 4294967296 →
      uint32 (s.m_main_ram_seg + s.m_dsp_addr_w) = s.m_main_ram_seg + s.m_dsp_addr_w ∧
      uint32 (s.m_main_ram_seg + s.m_dsp_addr_w + 1) = s.m_main_ram_seg + s.m_dsp_addr_w + 1) ∧
    ((s.twincobr_dsp_w d).m_main_ram_seg = s.m_main_ram_seg ∧
      (s.twincobr_dsp_w d).m_dsp_addr_w = s.m_dsp_addr_w ∧
      twincobr_state.m_dsp_BIO (s.twincobr_dsp_w d) = s.m_dsp_BIO ∧
      (s.twincobr_dsp_w d).maincpu_halt = s.maincpu_halt ∧
      (s.twincobr_dsp_w d).dsp_halt = s.dsp_halt) ∧
    ((s.wardner_dsp_w d).m_main_ram_seg = s.m_main_ram_seg ∧
      (s.wardner_dsp_w d).m_dsp_addr_w = s.m_dsp_addr_w ∧
      twincobr_state.m_dsp_BIO (s.wardner_dsp_w d) = s.m_dsp_BIO ∧
      (s.wardner_dsp_w d).maincpu_halt = s.maincpu_halt ∧
      (s.wardner_dsp_w d).dsp_halt = s.dsp_halt) := by
  have hne := uint32_succ_ne (s.m_main_ram_seg + s.m_dsp_addr_w)
  have hB : ∀ e : Nat, s.wardner_seg_ok →
      (s.wardner_dsp_w e).mainspace.cell (uint32 (s.m_main_ram_seg + s.m_dsp_addr_w))
        = e &&& 0xFF ∧
      (s.wardner_dsp_w e).mainspace.cell (uint32 (s.m_main_ram_seg + s.m_dsp_addr_w + 1))
        = (e >>> 8) &&& 0xFF ∧
      (∀ a, a ≠ uint32 (s.m_main_ram_seg + s.m_dsp_addr_w) →
        a ≠ uint32 (s.m_main_ram_seg + s.m_dsp_addr_w + 1) →
        (s.wardner_dsp_w e).mainspace.cell a = s.mainspace.cell a) := by
    intro e h
    rw [wardner_dsp_w_valid s e h]
    have hl := and_ff_lt e
    have hh := and_ff_lt (e >>> 8)
    refine ⟨?_, ?_, ?_⟩
    · simp only [address_space.write_byte, Nat.add_zero, ← Nat.add_assoc, hne.symm, if_false,
        if_true]
      exact Nat.mod_eq_of_lt hl
    · simp only [address_space.write_byte, Nat.add_zero, ← Nat.add_assoc, if_true]
      exact Nat.mod_eq_of_lt hh
    · intro a h0 h1
      simp only [address_space.write_byte, Nat.add_zero, ← Nat.add_assoc, h0, h1, if_false]
  refine ⟨?_, hB d, ?_, ?_, ?_, ?_⟩
  · intro h
    rw [twincobr_dsp_w_valid s d h]
    refine ⟨?_, ?_⟩
    · simp only [address_space.write_word, if_true]
      omega
    · intro a ha
      simp only [address_space.write_word, ha, if_false]
  · intro h7 h0
    have hok : s.wardner_seg_ok := Or.inl h7
    have := hB 0 hok
    rw [h7, h0] at this
    exact ⟨this.1, this.2.1⟩
  · intro hlt
    unfold uint32
    omega
  · by_cases h : s.twincobr_seg_ok
    · rw [twincobr_dsp_w_valid s d h]
      exact ⟨rfl, rfl, rfl, rfl, rfl⟩
    · rw [twincobr_dsp_w_invalid s d h]
      exact ⟨rfl, rfl, rfl, rfl, rfl⟩
  · by_cases h : s.wardner_seg_ok
    · rw [wardner_dsp_w_valid s d h]
      exact ⟨rfl, rfl, rfl, rfl, rfl⟩
    · rw [wardner_dsp_w_invalid s d h]
      exact ⟨rfl, rfl, rfl, rfl, rfl⟩

/-- Witness for C13: the value `0x1234` written by Twin Cobra at `0x30000`
and by Wardner at `0x7000`. -/
theorem dsp_port1_write_memory_witness :
    (0x1234 < 65536 ∧ (power_on.twincobr_dsp_addrsel_w 0x6000).twincobr_seg_ok ∧
      (power_on.wardner_dsp_addrsel_w 0x6000).wardner_seg_ok) ∧
    ((power_on.twincobr_dsp_addrsel_w 0x6000).twincobr_dsp_w 0x1234).mainspace.cell
        (uint32 ((power_on.twincobr_dsp_addrsel_w 0x6000).m_main_ram_seg
          + (power_on.twincobr_dsp_addrsel_w 0x6000).m_dsp_addr_w)) = 0x1234 ∧
    ((power_on.wardner_dsp_addrsel_w 0x6000).wardner_dsp_w 0x1234).mainspace.cell
        (uint32 ((power_on.wardner_dsp_addrsel_w 0x6000).m_main_ram_seg
          + (power_on.wardner_dsp_addrsel_w 0x6000).m_dsp_addr_w)) = 0x1234 &&& 0xFF :=
  ⟨⟨by decide, by decide, by decide⟩,
    ((dsp_port1_write_memory (power_on.twincobr_dsp_addrsel_w 0x6000) 0x1234
      (by decide)).1 (by decide)).1,
    ((dsp_port1_write_memory (power_on.wardner_dsp_addrsel_w 0x6000) 0x1234
      (by decide)).2.1 (by decide)).1⟩

/-! ## Shared RAM -/

/-- C14. Shared RAM: with the low byte lane selected, `twincobr_sharedram_w`
at an in-range offset stores `data & 0xFF` there and leaves every other
offset as it was, so the following `twincobr_sharedram_r` at that offset
returns `data & 0xFF`, a value not above `0xFF`; with the lane not selected
the write leaves the shared RAM unchanged; a read changes nothing. -/
theorem sharedram_low_byte (s : twincobr_state) (offset data mem_mask : Nat) :
    (mem_mask &&& 0x00ff ≠ 0 → offset < s.m_sharedram.length →
      (s.twincobr_sharedram_w offset data mem_mask).m_sharedram
        = s.m_sharedram.set offset (data &&& 0xff) ∧
      (s.twincobr_sharedram_w offset data mem_mask).twincobr_sharedram_r offset
        = data &&& 0xff ∧
      data &&& 0xff ≤ 0xff ∧
      (∀ o, o ≠ offset →
        (s.twincobr_sharedram_w offset data mem_mask).twincobr_sharedram_r o
          = s.twincobr_sharedram_r o)) ∧
    (mem_mask &&& 0x00ff = 0 →
      (s.twincobr_sharedram_w offset data mem_mask).m_sharedram = s.m_sharedram) ∧
    s.step (.twincobr_sharedram_r offset) = s := by
  refine ⟨?_, ?_, rfl⟩
  · intro hm hlt
    have hb := and_ff_lt data
    refine ⟨?_, ?_, by omega, ?_⟩
    · simp [twincobr_state.twincobr_sharedram_w, hm]
    · simp [twincobr_state.twincobr_sharedram_w, twincobr_state.twincobr_sharedram_r, hm,
        List.getD_eq_getElem?_getD, List.getElem?_set, hlt]
    · intro o ho
      simp [twincobr_state.twincobr_sharedram_w, twincobr_state.twincobr_sharedram_r, hm,
        List.getD_eq_getElem?_getD, List.getElem?_set, Ne.symm ho]
  · intro hm
    simp [twincobr_state.twincobr_sharedram_w, hm]

/-- Witness for C14: the word `0xABCD` written at offset 2 with mask `0x00FF`,
and with mask `0xFF00`. -/
theorem sharedram_low_byte_witness :
    (0x00ff &&& 0x00ff ≠ 0 ∧ 2 < power_on_ram.m_sharedram.length ∧ 0xff00 &&& 0x00ff = 0) ∧
    (power_on_ram.twincobr_sharedram_w 2 0xABCD 0x00ff).twincobr_sharedram_r 2 = 0xCD ∧
    (power_on_ram.twincobr_sharedram_w 2 0xABCD 0xff00).m_sharedram = power_on_ram.m_sharedram :=
  ⟨⟨by decide, by decide, by decide⟩,
    ((sharedram_low_byte power_on_ram 2 0xABCD 0x00ff).1 (by decide) (by decide)).2.1,
    (sharedram_low_byte power_on_ram 2 0xABCD 0xff00).2.1 (by decide)⟩

/-! ## Machine reset -/

/-- C15. After the machine reset the offset register is 0, the segment
register is 0, execute-pending is clear, the BIO line is cleared and the
port-2 counter is -1, whatever they held before; segment 0 is outside both
allow-lists, so a port-1 access made right after the reset reads 0 and
leaves the main CPU's memory as it was. -/
theorem machine_reset_registers (s : twincobr_state) (d : Nat) :
    s.machine_reset.m_dsp_addr_w = 0 ∧
    s.machine_reset.m_main_ram_seg = 0 ∧
    s.machine_reset.m_dsp_execute = 0 ∧
    twincobr_state.m_dsp_BIO s.machine_reset = CLEAR_LINE ∧
    s.machine_reset.m_fsharkbt_8741 = -1 ∧
    ¬ s.machine_reset.twincobr_seg_ok ∧
    ¬ s.machine_reset.wardner_seg_ok ∧
    s.machine_reset.twincobr_dsp_r.1 = 0 ∧
    s.machine_reset.wardner_dsp_r.1 = 0 ∧
    (s.machine_reset.twincobr_dsp_w d).mainspace = s.mainspace ∧
    (s.machine_reset.wardner_dsp_w d).mainspace = s.mainspace ∧
    s.machine_reset.twincobr_dsp_r.2.logerror_out = s.logerror_out ++ [0] ∧
    s.machine_reset.wardner_dsp_r.2.logerror_out = s.logerror_out ++ [0] := by
  have hA : ¬ s.machine_reset.twincobr_seg_ok := by
    simp [twincobr_state.twincobr_seg_ok, twincobr_state.machine_reset]
  have hB : ¬ s.machine_reset.wardner_seg_ok := by
    simp [twincobr_state.wardner_seg_ok, twincobr_state.machine_reset]
  refine ⟨rfl, rfl, rfl, rfl, rfl, hA, hB, ?_, ?_, ?_, ?_, ?_, ?_⟩
  · simp [twincobr_state.twincobr_dsp_r, twincobr_state.machine_reset]
  · simp [twincobr_state.wardner_dsp_r, twincobr_state.machine_reset]
  · rw [twincobr_dsp_w_invalid _ d hA]; rfl
  · rw [wardner_dsp_w_invalid _ d hB]; rfl
  · simp [twincobr_state.twincobr_dsp_r, twincobr_state.machine_reset,
      twincobr_state.logerror, uint32]
  · simp [twincobr_state.wardner_dsp_r, twincobr_state.machine_reset,
      twincobr_state.logerror, uint32]

/-! ## Execute trigger after a port-0 write -/

/-- The mask `0xE000` never yields `0x7000`. -/
theorem and_e000_ne_7000 (v : Nat) : v &&& 0xe000 ≠ 0x7000 := by
  intro h
  have h1 : (v &&& 0xe000) &&& 0x1000 = 0 := by
    rw [Nat.and_assoc]
    show v &&& 0 = 0
    simp
  rw [h] at h1
  exact absurd h1 (by decide)

/-- The execute-pending flag left by `twincobr_dsp_w`. -/
theorem twincobr_dsp_w_execute (s : twincobr_state) (d : Nat) :
    (s.twincobr_dsp_w d).m_dsp_execute
      = if s.m_main_ram_seg = 0x30000 ∧ s.m_dsp_addr_w < 3 ∧ d = 0 then 1 else 0 := by
  by_cases h : s.twincobr_seg_ok
  · rw [twincobr_dsp_w_valid s d h]
  · rw [twincobr_dsp_w_invalid s d h]
    have h3 : ¬ s.m_main_ram_seg = 0x30000 := fun e => h (Or.inl e)
    simp [twincobr_state.logerror, h3]

/-- The execute-pending flag left by `wardner_dsp_w`. -/
theorem wardner_dsp_w_execute (s : twincobr_state) (d : Nat) :
    (s.wardner_dsp_w d).m_dsp_execute
      = if s.m_main_ram_seg = 0x7000 ∧ s.m_dsp_addr_w < 3 ∧ d = 0 then 1 else 0 := by
  by_cases h : s.wardner_seg_ok
  · rw [wardner_dsp_w_valid s d h]
  · rw [wardner_dsp_w_invalid s d h]
    have h7 : ¬ s.m_main_ram_seg = 0x7000 := fun e => h (Or.inl e)
    simp [twincobr_state.logerror, h7]

/-- The offset register left by `wardner_dsp_addrsel_w`. -/
theorem wardner_dsp_addrsel_w_offset (s : twincobr_state) (v : Nat) :
    (s.wardner_dsp_addrsel_w v).m_dsp_addr_w = (v &&& 0x07ff) <<< 1 := by
  unfold twincobr_state.wardner_dsp_addrsel_w
  by_cases h : v &&& 0xe000 = 0x6000
  · simp [h]
  · simp [h]

/-- C16 (as stated, refuted). The port-0 input `0x6002` selects the lowest
segment `0x30000` with index 2, below 3; the offset register becomes 4 and
the following port-1 write of 0 leaves execute-pending clear.  The same
holds for Wardner with segment `0x7000`. -/
theorem index_two_does_not_arm :
    (power_on.twincobr_dsp_addrsel_w 0x6002).m_main_ram_seg = 0x30000 ∧
    0x6002 &&& 0x1FFF < 3 ∧
    ((power_on.twincobr_dsp_addrsel_w 0x6002).twincobr_dsp_w 0).m_dsp_execute = 0 ∧
    (power_on.wardner_dsp_addrsel_w 0x6002).m_main_ram_seg = 0x7000 ∧
    0x6002 &&& 0x07FF < 3 ∧
    ((power_on.wardner_dsp_addrsel_w 0x6002).wardner_dsp_w 0).m_dsp_execute = 0 := by
  decide

/-- C16 (amended). For a port-0 input `v` that selects the lowest segment
(`0x30000` for Twin Cobra, `0x7000` for Wardner), the port-0 write of `v`
followed by a port-1 write of 0 sets execute-pending exactly when the index
(`v & 0x1FFF`, respectively `v & 0x07FF`) is below 2, that is for the
indices 0 and 1. -/
theorem execute_armed_iff_index_lt_two (s : twincobr_state) (v : Nat) :
    ((s.twincobr_dsp_addrsel_w v).m_main_ram_seg = 0x30000 →
      (((s.twincobr_dsp_addrsel_w v).twincobr_dsp_w 0).m_dsp_execute ≠ 0 ↔
        v &&& 0x1FFF < 2)) ∧
    ((s.wardner_dsp_addrsel_w v).m_main_ram_seg = 0x7000 →
      (((s.wardner_dsp_addrsel_w v).wardner_dsp_w 0).m_dsp_execute ≠ 0 ↔
        v &&& 0x07FF < 2)) := by
  constructor
  · intro hseg
    have hoff : (s.twincobr_dsp_addrsel_w v).m_dsp_addr_w = (v &&& 0x1fff) * 2 := by
      show (v &&& 0x1fff) <<< 1 = _
      rw [Nat.shiftLeft_eq]
    rw [twincobr_dsp_w_execute, hoff]
    by_cases hi : v &&& 0x1fff < 2
    · have hc : (v &&& 0x1fff) * 2 < 3 := by omega
      simp [hseg, hc, hi]
    · have hc : ¬ (v &&& 0x1fff) * 2 < 3 := by omega
      simp [hc, hi]
  · intro hseg
    have hoff : (s.wardner_dsp_addrsel_w v).m_dsp_addr_w = (v &&& 0x07ff) * 2 := by
      rw [wardner_dsp_addrsel_w_offset, Nat.shiftLeft_eq]
    rw [wardner_dsp_w_execute, hoff]
    by_cases hi : v &&& 0x07ff < 2
    · have hc : (v &&& 0x07ff) * 2 < 3 := by omega
      simp [hseg, hc, hi]
    · have hc : ¬ (v &&& 0x07ff) * 2 < 3 := by omega
      simp [hc, hi]

/-- Witness for C16 (amended): the inputs `0x6001` (index 1, armed) and
`0x6002` (index 2, not armed). -/
theorem execute_armed_iff_index_lt_two_witness :
    (power_on.twincobr_dsp_addrsel_w 0x6001).m_main_ram_seg = 0x30000 ∧
    (power_on.wardner_dsp_addrsel_w 0x6001).m_main_ram_seg = 0x7000 ∧
    ((power_on.twincobr_dsp_addrsel_w 0x6001).twincobr_dsp_w 0).m_dsp_execute ≠ 0 ∧
    ((power_on.wardner_dsp_addrsel_w 0x6001).wardner_dsp_w 0).m_dsp_execute ≠ 0 :=
  ⟨by decide, by decide,
    ((execute_armed_iff_index_lt_two power_on 0x6001).1 (by decide)).2 (by decide),
    ((execute_armed_iff_index_lt_two power_on 0x6001).2 (by decide)).2 (by decide)⟩

/-! ## Port-1 access outside the allow-list, whole state -/

/-- C17 (as stated, refuted). With execute-pending set and the segment
register outside both allow-lists, a port-1 write clears execute-pending:
the state is not left unchanged. -/
theorem invalid_write_clears_execute :
    ¬ armed_then_deselected.twincobr_seg_ok ∧
    ¬ armed_then_deselected.wardner_seg_ok ∧
    armed_then_deselected.m_dsp_execute = 1 ∧
    (armed_then_deselected.twincobr_dsp_w 5).m_dsp_execute = 0 ∧
    (armed_then_deselected.wardner_dsp_w 5).m_dsp_execute = 0 := by
  decide

/-- C17 (amended). With the segment register outside the allow-list, a
port-1 read changes nothing but the error log, and a port-1 write changes
nothing but the error log and execute-pending, which it clears: segment,
offset, BIO line, both halt lines and the main CPU's memory are unchanged,
and the write is a no-op apart from the diagnostic when execute-pending was
already clear. -/
theorem invalid_segment_access_state (s : twincobr_state) (v : Nat) :
    (¬ s.twincobr_seg_ok →
      s.twincobr_dsp_r.2 = s.logerror ∧
      s.twincobr_dsp_w v = twincobr_state.logerror { s with m_dsp_execute := 0 }) ∧
    (¬ s.wardner_seg_ok →
      s.wardner_dsp_r.2 = s.logerror ∧
      s.wardner_dsp_w v = twincobr_state.logerror { s with m_dsp_execute := 0 }) ∧
    (s.logerror.m_main_ram_seg = s.m_main_ram_seg ∧
      s.logerror.m_dsp_addr_w = s.m_dsp_addr_w ∧
      twincobr_state.m_dsp_BIO s.logerror = s.m_dsp_BIO ∧
      s.logerror.m_dsp_execute = s.m_dsp_execute ∧
      s.logerror.maincpu_halt = s.maincpu_halt ∧
      s.logerror.dsp_halt = s.dsp_halt ∧
      s.logerror.mainspace = s.mainspace) ∧
    ((twincobr_state.logerror { s with m_dsp_execute := 0 }).m_main_ram_seg = s.m_main_ram_seg ∧
      (twincobr_state.logerror { s with m_dsp_execute := 0 }).m_dsp_addr_w = s.m_dsp_addr_w ∧
      twincobr_state.m_dsp_BIO (twincobr_state.logerror { s with m_dsp_execute := 0 })
        = s.m_dsp_BIO ∧
      (twincobr_state.logerror { s with m_dsp_execute := 0 }).m_dsp_execute = 0 ∧
      (twincobr_state.logerror { s with m_dsp_execute := 0 }).maincpu_halt = s.maincpu_halt ∧
      (twincobr_state.logerror { s with m_dsp_execute := 0 }).dsp_halt = s.dsp_halt ∧
      (twincobr_state.logerror { s with m_dsp_execute := 0 }).mainspace = s.mainspace) ∧
    (s.m_dsp_execute = 0 →
      twincobr_state.logerror { s with m_dsp_execute := 0 } = s.logerror) := by
  refine ⟨?_, ?_, ⟨rfl, rfl, rfl, rfl, rfl, rfl, rfl⟩, ⟨rfl, rfl, rfl, rfl, rfl, rfl, rfl⟩, ?_⟩
  · intro h
    refine ⟨?_, twincobr_dsp_w_invalid s v h⟩
    unfold twincobr_state.twincobr_seg_ok at h
    simp [twincobr_state.twincobr_dsp_r, h]
  · intro h
    refine ⟨?_, wardner_dsp_w_invalid s v h⟩
    unfold twincobr_state.wardner_seg_ok at h
    simp [twincobr_state.wardner_dsp_r, h]
  · intro h
    rw [← h]

/-- Witness for C17 (amended): the machine right after power-on (segment 0,
execute-pending clear) and the armed machine with its segment set to 0. -/
theorem invalid_segment_access_state_witness :
    (¬ power_on.twincobr_seg_ok ∧ ¬ armed_then_deselected.wardner_seg_ok ∧
      power_on.m_dsp_execute = 0) ∧
    power_on.twincobr_dsp_r.2 = power_on.logerror ∧
    armed_then_deselected.wardner_dsp_w 5
      = twincobr_state.logerror { armed_then_deselected with m_dsp_execute := 0 } ∧
    twincobr_state.logerror { power_on with m_dsp_execute := 0 } = power_on.logerror :=
  ⟨⟨by decide, by decide, by decide⟩,
    ((invalid_segment_access_state power_on 5).1 (by decide)).1,
    ((invalid_segment_access_state armed_then_deselected 5).2.1 (by decide)).2,
    (invalid_segment_access_state power_on 5).2.2.2.2 (by decide)⟩

/-! ## Who changes execute-pending -/

/-- C18. Execute-pending, when clear, stays clear under every operation other
than a port-1 write; when set, it stays set (with its value) under every
operation other than a port-1 write, a BIO-control write of exactly 0 and the
machine reset.  The load of a snapshot by the save manager is not one of
these operations: it installs the saved value of the flag. -/
theorem execute_pending_frame (s : twincobr_state) (op : Op) :
    (op.is_port1_write = false → op.is_postload = false →
      s.m_dsp_execute = 0 → (s.step op).m_dsp_execute = 0) ∧
    (op.is_port1_write = false → op.is_bio_w_zero = false → op.is_reset = false →
      op.is_postload = false →
      s.m_dsp_execute ≠ 0 → (s.step op).m_dsp_execute = s.m_dsp_execute) ∧
    (∀ i : save_items, (s.step (.postload i)).m_dsp_execute = i.m_dsp_execute) := by
  refine ⟨?_, ?_, ?_⟩
  · intro h1 h2 h0
    cases op <;>
      simp only [Op.is_port1_write, Op.is_postload, Bool.true_eq_false] at h1 h2 <;>
      simp only [twincobr_state.step, twincobr_state.twincobr_interrupt,
        twincobr_state.wardner_interrupt, twincobr_state.twincobr_dsp_addrsel_w,
        twincobr_state.twincobr_dsp_r, twincobr_state.wardner_dsp_addrsel_w,
        twincobr_state.wardner_dsp_r, twincobr_state.twincobr_dsp_bio_w,
        twincobr_state.fsharkbt_dsp_r, twincobr_state.fsharkbt_dsp_w,
        twincobr_state.int_enable_w, twincobr_state.dsp_int_w,
        twincobr_state.twincobr_restore_dsp, twincobr_state.coin_counter_1_w,
        twincobr_state.coin_counter_2_w, twincobr_state.coin_lockout_1_w,
        twincobr_state.coin_lockout_2_w, twincobr_state.twincobr_sharedram_w,
        twincobr_state.machine_reset, twincobr_state.logerror] <;>
      (repeat' split) <;> first | exact h0 | rfl
  · intro h1 h2 h3 h4 h0
    cases op <;>
      simp only [Op.is_port1_write, Op.is_postload, Op.is_reset, Op.is_bio_w_zero,
        Bool.true_eq_false, beq_eq_false_iff_ne, ne_eq] at h1 h2 h3 h4 <;>
      simp only [twincobr_state.step, twincobr_state.twincobr_interrupt,
        twincobr_state.wardner_interrupt, twincobr_state.twincobr_dsp_addrsel_w,
        twincobr_state.twincobr_dsp_r, twincobr_state.wardner_dsp_addrsel_w,
        twincobr_state.wardner_dsp_r, twincobr_state.twincobr_dsp_bio_w,
        twincobr_state.fsharkbt_dsp_r, twincobr_state.fsharkbt_dsp_w,
        twincobr_state.int_enable_w, twincobr_state.dsp_int_w,
        twincobr_state.twincobr_restore_dsp, twincobr_state.coin_counter_1_w,
        twincobr_state.coin_counter_2_w, twincobr_state.coin_lockout_1_w,
        twincobr_state.coin_lockout_2_w, twincobr_state.twincobr_sharedram_w,
        twincobr_state.logerror, h2, if_false] <;>
      (repeat' split) <;> rfl
  · intro i
    show (twincobr_state.postload s i).m_dsp_execute = _
    unfold twincobr_state.postload twincobr_state.twincobr_restore_dsp twincobr_state.dsp_int_w
    simp only []
    split <;> rfl

/-- Witness for C18: a port-1 read on the armed machine and on the idle
machine. -/
theorem execute_pending_frame_witness :
    (Op.twincobr_dsp_r.is_port1_write = false ∧ Op.twincobr_dsp_r.is_bio_w_zero = false ∧
      Op.twincobr_dsp_r.is_reset = false ∧ Op.twincobr_dsp_r.is_postload = false) ∧
    ((power_on.run handoff.dropLast).m_dsp_execute ≠ 0 ∧ power_on.m_dsp_execute = 0) ∧
    ((power_on.run handoff.dropLast).step .twincobr_dsp_r).m_dsp_execute
      = (power_on.run handoff.dropLast).m_dsp_execute ∧
    (power_on.step .twincobr_dsp_r).m_dsp_execute = 0 :=
  ⟨⟨by decide, by decide, by decide, by decide⟩, ⟨by decide, by decide⟩,
    (execute_pending_frame (power_on.run handoff.dropLast) .twincobr_dsp_r).2.1
      (by decide) (by decide) (by decide) (by decide) (by decide),
    (execute_pending_frame power_on .twincobr_dsp_r).1 (by decide) (by decide) (by decide)⟩

/-! ## The two variants accept the same port-0 inputs -/

/-- C19. For every port-0 input `v` the segment stored by
`twincobr_dsp_addrsel_w` is in `{0x30000, 0x40000, 0x50000}` exactly when the
segment stored by `wardner_dsp_addrsel_w` is in `{0x7000, 0x8000, 0xA000}`,
and both hold exactly when `v & 0xE000` is `0x6000`, `0x8000` or `0xA000`;
`v` selects `0x30000` for Twin Cobra exactly when it selects `0x7000` for
Wardner. -/
theorem addrsel_variants_agree (s t : twincobr_state) (v : Nat) :
    ((s.twincobr_dsp_addrsel_w v).twincobr_seg_ok ↔
      (t.wardner_dsp_addrsel_w v).wardner_seg_ok) ∧
    ((s.twincobr_dsp_addrsel_w v).twincobr_seg_ok ↔
      (v &&& 0xE000 = 0x6000 ∨ v &&& 0xE000 = 0x8000 ∨ v &&& 0xE000 = 0xA000)) ∧
    ((t.wardner_dsp_addrsel_w v).wardner_seg_ok ↔
      (v &&& 0xE000 = 0x6000 ∨ v &&& 0xE000 = 0x8000 ∨ v &&& 0xE000 = 0xA000)) ∧
    ((s.twincobr_dsp_addrsel_w v).m_main_ram_seg = 0x30000 ↔
      (t.wardner_dsp_addrsel_w v).m_main_ram_seg = 0x7000) := by
  have h7 := and_e000_ne_7000 v
  have hA : (s.twincobr_dsp_addrsel_w v).m_main_ram_seg = (v &&& 0xe000) * 8 := by
    show (v &&& 0xe000) <<< 3 = _
    rw [Nat.shiftLeft_eq]
  have hB : (t.wardner_dsp_addrsel_w v).m_main_ram_seg
      = if v &&& 0xe000 = 0x6000 then 0x7000 else v &&& 0xe000 := by
    unfold twincobr_state.wardner_dsp_addrsel_w
    by_cases h : v &&& 0xe000 = 0x6000
    · simp [h]
    · simp [h]
  have e1 : (s.twincobr_dsp_addrsel_w v).twincobr_seg_ok ↔
      (v &&& 0xE000 = 0x6000 ∨ v &&& 0xE000 = 0x8000 ∨ v &&& 0xE000 = 0xA000) := by
    unfold twincobr_state.twincobr_seg_ok
    rw [hA]
    omega
  have e2 : (t.wardner_dsp_addrsel_w v).wardner_seg_ok ↔
      (v &&& 0xE000 = 0x6000 ∨ v &&& 0xE000 = 0x8000 ∨ v &&& 0xE000 = 0xA000) := by
    unfold twincobr_state.wardner_seg_ok
    rw [hB]
    split_ifs with h <;> omega
  refine ⟨e1.trans e2.symm, e1, e2, ?_⟩
  rw [hA, hB]
  split_ifs with h <;> omega

/-! ## Port-1 reads are pure -/

/-- C20. A port-1 read, with a valid or an invalid segment, leaves the
segment, offset, BIO line, execute-pending flag, both halt lines and the main
CPU's memory unchanged, for Twin Cobra and for Wardner; hence a second read
returns the same value, and a read made after arming does not prevent the
BIO-control write of 0 from releasing the main CPU. -/
theorem dsp_port1_read_pure (s : twincobr_state) :
    (s.twincobr_dsp_r.2.m_main_ram_seg = s.m_main_ram_seg ∧
      s.twincobr_dsp_r.2.m_dsp_addr_w = s.m_dsp_addr_w ∧
      twincobr_state.m_dsp_BIO s.twincobr_dsp_r.2 = s.m_dsp_BIO ∧
      s.twincobr_dsp_r.2.m_dsp_execute = s.m_dsp_execute ∧
      s.twincobr_dsp_r.2.maincpu_halt = s.maincpu_halt ∧
      s.twincobr_dsp_r.2.dsp_halt = s.dsp_halt ∧
      s.twincobr_dsp_r.2.mainspace = s.mainspace) ∧
    (s.wardner_dsp_r.2.m_main_ram_seg = s.m_main_ram_seg ∧
      s.wardner_dsp_r.2.m_dsp_addr_w = s.m_dsp_addr_w ∧
      twincobr_state.m_dsp_BIO s.wardner_dsp_r.2 = s.m_dsp_BIO ∧
      s.wardner_dsp_r.2.m_dsp_execute = s.m_dsp_execute ∧
      s.wardner_dsp_r.2.maincpu_halt = s.maincpu_halt ∧
      s.wardner_dsp_r.2.dsp_halt = s.dsp_halt ∧
      s.wardner_dsp_r.2.mainspace = s.mainspace) ∧
    s.twincobr_dsp_r.2.twincobr_dsp_r.1 = s.twincobr_dsp_r.1 ∧
    s.wardner_dsp_r.2.wardner_dsp_r.1 = s.wardner_dsp_r.1 ∧
    (s.m_dsp_execute ≠ 0 →
      s.twincobr_dsp_r.2.m_dsp_execute ≠ 0 ∧
      s.wardner_dsp_r.2.m_dsp_execute ≠ 0 ∧
      (s.twincobr_dsp_r.2.twincobr_dsp_bio_w 0).maincpu_halt = CLEAR_LINE ∧
      (s.wardner_dsp_r.2.twincobr_dsp_bio_w 0).maincpu_halt = CLEAR_LINE) := by
  have hA : s.twincobr_dsp_r.2 = s ∨ s.twincobr_dsp_r.2 = s.logerror := by
    unfold twincobr_state.twincobr_dsp_r
    split
    · exact Or.inl rfl
    · exact Or.inr rfl
  have hB : s.wardner_dsp_r.2 = s ∨ s.wardner_dsp_r.2 = s.logerror := by
    unfold twincobr_state.wardner_dsp_r
    split
    · exact Or.inl rfl
    · exact Or.inr rfl
  have hAv : s.twincobr_dsp_r.2.twincobr_dsp_r.1 = s.twincobr_dsp_r.1 := by
    by_cases h : s.m_main_ram_seg = 0x30000 ∨ s.m_main_ram_seg = 0x40000 ∨
        s.m_main_ram_seg = 0x50000
    · simp [twincobr_state.twincobr_dsp_r, h]
    · simp [twincobr_state.twincobr_dsp_r, twincobr_state.logerror, h]
  have hBv : s.wardner_dsp_r.2.wardner_dsp_r.1 = s.wardner_dsp_r.1 := by
    by_cases h : s.m_main_ram_seg = 0x7000 ∨ s.m_main_ram_seg = 0x8000 ∨
        s.m_main_ram_seg = 0xa000
    · simp [twincobr_state.wardner_dsp_r, h]
    · simp [twincobr_state.wardner_dsp_r, twincobr_state.logerror, h]
  have hfA : s.twincobr_dsp_r.2.m_dsp_execute = s.m_dsp_execute := by
    rcases hA with h | h
    · rw [h]
    · rw [h]; rfl
  have hfB : s.wardner_dsp_r.2.m_dsp_execute = s.m_dsp_execute := by
    rcases hB with h | h
    · rw [h]
    · rw [h]; rfl
  refine ⟨?_, ?_, hAv, hBv, ?_⟩
  · rcases hA with h | h <;> rw [h] <;> exact ⟨rfl, rfl, rfl, rfl, rfl, rfl, rfl⟩
  · rcases hB with h | h <;> rw [h] <;> exact ⟨rfl, rfl, rfl, rfl, rfl, rfl, rfl⟩
  · intro he
    have heA : s.twincobr_dsp_r.2.m_dsp_execute ≠ 0 := by rw [hfA]; exact he
    have heB : s.wardner_dsp_r.2.m_dsp_execute ≠ 0 := by rw [hfB]; exact he
    refine ⟨heA, heB, ?_, ?_⟩
    · simp [twincobr_state.twincobr_dsp_bio_w, heA]
    · simp [twincobr_state.twincobr_dsp_bio_w, heB]

/-- Witness for C20: the armed machine, read once before the BIO-control
write of 0. -/
theorem dsp_port1_read_pure_witness :
    (power_on.run handoff.dropLast).m_dsp_execute ≠ 0 ∧
    (power_on.run handoff.dropLast).twincobr_dsp_r.2.m_dsp_execute ≠ 0 ∧
    ((power_on.run handoff.dropLast).twincobr_dsp_r.2.twincobr_dsp_bio_w 0).maincpu_halt
      = CLEAR_LINE :=
  ⟨by decide,
    ((dsp_port1_read_pure (power_on.run handoff.dropLast)).2.2.2.2 (by decide)).1,
    ((dsp_port1_read_pure (power_on.run handoff.dropLast)).2.2.2.2 (by decide)).2.2.1⟩
